import Mathlib

/-!
Verification development for the Falcon language implementation
(lexer/parser/compiler/VM/tree-interpreter pipeline).

The definitions below are a shallow embedding of the Python sources:
  * `src/falcon/compiler.py`  — `Compiler`, `Code`, `FunctionObject`
  * `src/falcon/vm.py`        — `VM.run_frame` handlers, `VM._is_truthy`
  * `src/falcon/interpreter.py` — `Interpreter._execute` / `_eval`,
    `Function.call`, `Interpreter.call_function_ast`, `Interpreter._is_truthy`
  * `src/falcon/env.py`       — `Environment`
  * `src/falcon/runner.py`    — `run_file` / `main` control flow

Conventions of the embedding:
  * Python values are the inductive `Value`; Python `None` is `Value.vnull`,
    Python floats are represented exactly as rationals (only sign/zero tests
    and exact arithmetic on them occur in the embedded fragment).
  * Python dicts keyed by strings are association lists in insertion order.
  * Environments (`env.py`) are heap cells: a `Heap` is a list of frames and
    an environment is an index into it, because Python environments are
    mutable objects shared between closures.
  * Host exceptions and `InterpreterError` / `VMRuntimeError` are `Except`
    error results carrying the message (apostrophes of the original message
    text are elided).
  * The embedded AST is the fragment of `ast_nodes.py` that the claims
    exercise; every constructor that is embedded carries the fields of the
    corresponding Python dataclass that the embedded code reads.
-/

namespace Falcon

mutual

/-- Python runtime values as used by the VM and the interpreter
(`None`, `bool`, `int`, `float`, `str`, `list`, `tuple`, `dict`, `set`,
interpreter `Function` objects, the `_recur_wrapper` closures made by
`Interpreter.call_function_ast`, and compiled-world `FunctionObject`s). -/
inductive Value where
  | vnull : Value
  | vbool (b : Bool) : Value
  | vint (n : Int) : Value
  | vfloat (q : ℚ) : Value
  | vstr (s : String) : Value
  | vlist (xs : List Value) : Value
  | vtuple (xs : List Value) : Value
  | vdict (entries : List (Value × Value)) : Value
  | vset (xs : List Value) : Value
  | vfunc (name : Option String) (params : List String) (body : List Stmt)
      (closure : Nat) : Value
  | vrecurWrapper (name : Option String) (params : List String)
      (body : List Stmt) : Value
  | vfnObj (f : FunctionObject) : Value

/-- `compiler.FunctionObject`: code-backed (`.code` set) or AST-backed
(`.ast_node` set, here the fields of the `FunctionExpr` node). -/
inductive FunctionObject where
  | codeBacked (name : Option String) (code : Code) : FunctionObject
  | astBacked (name : Option String) (params : List String)
      (body : List Stmt) : FunctionObject

/-- `compiler.Code`. -/
inductive Code where
  | mk (name : String) (instructions : List Instr) (consts : List Const)
      (nlocals : Nat) (argcount : Nat) : Code

/-- A const-pool entry: a plain value, a nested `Code` object, or a
`FunctionExpr` AST node (its name, params and body). -/
inductive Const where
  | cval (v : Value) : Const
  | ccode (c : Code) : Const
  | castFn (name : Option String) (params : List String)
      (body : List Stmt) : Const

/-- VM instructions `(op, arg)`.  Jump targets are `Int` because the
compiler emits `-1` placeholders and `vm.py` feeds the raw argument back
into the instruction pointer. -/
inductive Instr where
  | LOAD_CONST (idx : Nat) : Instr
  | LOAD_GLOBAL (name : String) : Instr
  | STORE_GLOBAL (name : String) : Instr
  | LOAD_LOCAL (idx : Nat) : Instr
  | STORE_LOCAL (idx : Nat) : Instr
  | POP : Instr
  | ADD : Instr
  | SUB : Instr
  | MUL : Instr
  | DIV : Instr
  | MOD : Instr
  | EQ : Instr
  | NEQ : Instr
  | LT : Instr
  | LTE : Instr
  | GT : Instr
  | GTE : Instr
  | NOT : Instr
  | JUMP (target : Int) : Instr
  | JUMP_IF_FALSE (target : Int) : Instr
  | CALL (argc : Nat) : Instr
  | RETURN : Instr
  | MAKE_FUNCTION_CODE (constIdx : Nat) (name : String)
      (argcount : Nat) (nlocals : Nat) : Instr
  | MAKE_FUNCTION_AST (constIdx : Nat) : Instr
  | INC_LOCAL (idx : Nat) : Instr
  | JUMP_IF_GE_LOCAL_IMM (idx : Nat) (imm : Value) (target : Int) : Instr
  | FAST_COUNT (idx : Nat) (limit : Value) : Instr

/-- Expressions (`ast_nodes.py`), restricted to the fragment the claims
exercise. -/
inductive Expr where
  | lit (v : Value) : Expr
  | evar (name : String) : Expr
  | binary (left : Expr) (op : String) (right : Expr) : Expr
  | assign (target : Expr) (value : Expr) : Expr
  | call (callee : Expr) (args : List Expr) : Expr
  | funcExpr (name : Option String) (params : List String)
      (body : List Stmt) : Expr

/-- Statements (`ast_nodes.py`), restricted to the fragment the claims
exercise.  `ThrowStmt` and `TryCatchStmt` exist in `ast_nodes.py` and are
produced by the parser; they are included so that the executors can be
evaluated on them. -/
inductive Stmt where
  | exprStmt (e : Expr) : Stmt
  | letStmt (name : String) (init : Option Expr) (is_const : Bool)
      (is_var : Bool) : Stmt
  | blockStmt (body : List Stmt) : Stmt
  | forStmt (name : String) (start : Expr) (stop : Expr)
      (step : Option Expr) (body : List Stmt) : Stmt
  | functionStmt (name : String) (params : List String)
      (body : List Stmt) : Stmt
  | returnStmt (value : Option Expr) : Stmt
  | throwStmt (value : Expr) : Stmt
  | tryCatchStmt (tryBlock : List Stmt) (catchName : String)
      (catchBlock : List Stmt) : Stmt

end

namespace Code

/-- Field accessor. -/
def name : Code → String
  | .mk n _ _ _ _ => n

/-- Field accessor. -/
def instructions : Code → List Instr
  | .mk _ i _ _ _ => i

/-- Field accessor. -/
def consts : Code → List Const
  | .mk _ _ c _ _ => c

/-- Field accessor. -/
def nlocals : Code → Nat
  | .mk _ _ _ nl _ => nl

/-- Field accessor. -/
def argcount : Code → Nat
  | .mk _ _ _ _ a => a

end Code

/-- `VM._is_truthy` (vm.py): `None` and `False` are false, numbers are
compared against zero, strings and collections test emptiness, everything
else is true.  The `isinstance` chain checks `bool` before `(int, float)`
and `(list, dict, tuple, set)` together. -/
def VM.is_truthy : Value → Bool
  | .vnull => false
  | .vbool b => b
  | .vint n => n != 0
  | .vfloat q => q != 0
  | .vstr s => s.length > 0
  | .vlist xs => xs.length > 0
  | .vdict xs => xs.length > 0
  | .vtuple xs => xs.length > 0
  | .vset xs => xs.length > 0
  | _ => true

/-- `Interpreter._is_truthy` (interpreter.py): textually the same checks,
with the collection tuple written `(list, tuple, dict, set)`. -/
def Interpreter.is_truthy : Value → Bool
  | .vnull => false
  | .vbool b => b
  | .vint n => n != 0
  | .vfloat q => q != 0
  | .vstr s => s.length > 0
  | .vlist xs => xs.length > 0
  | .vtuple xs => xs.length > 0
  | .vdict xs => xs.length > 0
  | .vset xs => xs.length > 0
  | _ => true

/-! ## Python dictionaries keyed by strings -/

/-- Lookup in an insertion-ordered association list (a Python `dict` with
string keys). -/
def alookup : List (String × Value) → String → Option Value
  | [], _ => none
  | (k, v) :: rest, key => if k = key then some v else alookup rest key

/-- `d[key] = v` on a Python dict: overwrite in place, else append. -/
def aset : List (String × Value) → String → Value → List (String × Value)
  | [], key, v => [(key, v)]
  | (k, w) :: rest, key, v =>
    if k = key then (k, v) :: rest else (k, w) :: aset rest key v

/-! ## Numeric views of Python values

Python treats `bool` as an `int` in arithmetic and comparisons. -/

/-- The value as a Python `int` when arithmetic keeps it integral. -/
def intVal : Value → Option Int
  | .vbool b => some (if b then 1 else 0)
  | .vint n => some n
  | _ => none

/-- The value as a number (`bool`, `int` or `float`). -/
def ratVal : Value → Option ℚ
  | .vbool b => some (if b then 1 else 0)
  | .vint n => some (n : ℚ)
  | .vfloat q => some q
  | _ => none

/-- `isinstance(v, str)`. -/
def isStr : Value → Bool
  | .vstr _ => true
  | _ => false

/-- Python `+` as the VM and interpreter apply it outside the string-coercion
special case: numeric addition with `int`/`float` promotion, and
concatenation of same-kind sequences.  Other operand combinations raise a
`TypeError`, modelled as the error message. -/
def pyAdd (a b : Value) : Except String Value :=
  match intVal a, intVal b with
  | some x, some y => .ok (.vint (x + y))
  | _, _ =>
    match ratVal a, ratVal b with
    | some x, some y => .ok (.vfloat (x + y))
    | _, _ =>
      match a, b with
      | .vstr x, .vstr y => .ok (.vstr (x ++ y))
      | .vlist x, .vlist y => .ok (.vlist (x ++ y))
      | .vtuple x, .vtuple y => .ok (.vtuple (x ++ y))
      | _, _ => .error "unsupported operand type(s) for +"

/-- Python `-` (numbers only in the embedded fragment). -/
def pySub (a b : Value) : Except String Value :=
  match intVal a, intVal b with
  | some x, some y => .ok (.vint (x - y))
  | _, _ =>
    match ratVal a, ratVal b with
    | some x, some y => .ok (.vfloat (x - y))
    | _, _ => .error "unsupported operand type(s) for -"

/-- Python `*` (numbers only in the embedded fragment; sequence repetition
is not exercised by any embedded program). -/
def pyMul (a b : Value) : Except String Value :=
  match intVal a, intVal b with
  | some x, some y => .ok (.vint (x * y))
  | _, _ =>
    match ratVal a, ratVal b with
    | some x, some y => .ok (.vfloat (x * y))
    | _, _ => .error "unsupported operand type(s) for *"

/-- Python `/`: true division, always a float; division by zero raises. -/
def pyDiv (a b : Value) : Except String Value :=
  match ratVal a, ratVal b with
  | some x, some y =>
    if y = 0 then .error "division by zero" else .ok (.vfloat (x / y))
  | _, _ => .error "unsupported operand type(s) for /"

/-- Python `%` on integers (sign of the divisor, i.e. floor modulus);
other operand kinds are outside the embedded fragment. -/
def pyMod (a b : Value) : Except String Value :=
  match intVal a, intVal b with
  | some x, some y =>
    if y = 0 then .error "integer modulo by zero" else .ok (.vint (Int.fmod x y))
  | _, _ => .error "unsupported operand type(s) for %"

/-- Python `<` on numbers and strings; other comparisons raise `TypeError`
(the embedded programs compare only numbers). -/
def pyLt (a b : Value) : Except String Bool :=
  match ratVal a, ratVal b with
  | some x, some y => .ok (decide (x < y))
  | _, _ =>
    match a, b with
    | .vstr x, .vstr y => .ok (decide (x < y))
    | _, _ => .error "unorderable types"

/-- Python `<=`, as `pyLt`. -/
def pyLe (a b : Value) : Except String Bool :=
  match ratVal a, ratVal b with
  | some x, some y => .ok (decide (x ≤ y))
  | _, _ =>
    match a, b with
    | .vstr x, .vstr y => .ok (decide (x ≤ y))
    | _, _ => .error "unorderable types"

/-- Python `>`, as `pyLt`. -/
def pyGt (a b : Value) : Except String Bool :=
  match ratVal a, ratVal b with
  | some x, some y => .ok (decide (y < x))
  | _, _ =>
    match a, b with
    | .vstr x, .vstr y => .ok (decide (y < x))
    | _, _ => .error "unorderable types"

/-- Python `>=`, as `pyLt`. -/
def pyGe (a b : Value) : Except String Bool :=
  match ratVal a, ratVal b with
  | some x, some y => .ok (decide (y ≤ x))
  | _, _ =>
    match a, b with
    | .vstr x, .vstr y => .ok (decide (y ≤ x))
    | _, _ => .error "unorderable types"

mutual

/-- Python `==`: cross-kind numeric equality (`1 == 1.0 == True`),
structural equality of sequences; function objects compare by identity in
Python, modelled as `false` (no embedded program compares functions). -/
def pyEq : Value → Value → Bool
  | .vnull, .vnull => true
  | .vstr x, .vstr y => x == y
  | .vlist x, .vlist y => pyEqList x y
  | .vtuple x, .vtuple y => pyEqList x y
  | a, b =>
    match ratVal a, ratVal b with
    | some x, some y => x == y
    | _, _ => false

/-- Elementwise Python `==` of two sequences. -/
def pyEqList : List Value → List Value → Bool
  | [], [] => true
  | x :: xs, y :: ys => pyEq x y && pyEqList xs ys
  | _, _ => false

end

/-- `builtins._to_string_impl` / `Interpreter._to_string`, the canonical
string coercion: `None` is "null", booleans lowercase, strings unchanged,
numbers via `str`.  Collections go through `json.dumps` in the source; no
embedded program string-coerces a collection, so those cases produce a
fixed marker here. -/
def to_string_impl : Value → String
  | .vnull => "null"
  | .vbool b => if b then "true" else "false"
  | .vstr s => s
  | .vint n => toString n
  | .vfloat q => toString q
  | _ => "<json>"

/-! ## Environments (env.py)

`Environment` objects are mutable and shared (closures keep references), so
they live in a heap: a `Heap` is the list of all frames created so far and
an environment is an index into it.  Frame `0` is the interpreter globals.
The `types` map of `env.py` stays empty in the embedded fragment (no
embedded declaration carries a type annotation), so `assign` only checks
`consts`. -/

/-- One `Environment`: bindings, const names, parent link, and the
`is_function_scope` marker used by `var` hoisting. -/
structure EnvFrame where
  values : List (String × Value)
  consts : List String
  parent : Option Nat
  is_function_scope : Bool

/-- The store of all environment frames. -/
abbrev Heap := List EnvFrame

/-- A fresh child environment (`Environment(parent)`). -/
def newFrame (parent : Option Nat) (fnScope : Bool) : EnvFrame :=
  { values := [], consts := [], parent := parent, is_function_scope := fnScope }

/-- `Environment.define(name, value, is_const)` on frame `e` (no type
annotation in the embedded fragment). -/
def envDefine (h : Heap) (e : Nat) (name : String) (v : Value)
    (is_const : Bool) : Heap :=
  match h.get? e with
  | none => h
  | some fr =>
    h.set e { fr with
      values := aset fr.values name v
      consts := if is_const && ¬ fr.consts.contains name
                then fr.consts ++ [name] else fr.consts }

/-- Define a list of bindings in order (`for name, val in zip(...)`). -/
def envDefineAll (h : Heap) (e : Nat) : List (String × Value) → Heap
  | [] => h
  | (n, v) :: rest => envDefineAll (envDefine h e n v false) e rest

/-- `Environment.get`: walk the parent chain; `none` models the
`NameError` for an undefined variable.  `fuel` bounds the chain walk (the
heaps built by execution are acyclic and the walk needs at most the heap
size). -/
def envGet (h : Heap) : Nat → Nat → String → Option Value
  | 0, _, _ => none
  | fuel + 1, e, name =>
    match h.get? e with
    | none => none
    | some fr =>
      match alookup fr.values name with
      | some v => some v
      | none =>
        match fr.parent with
        | some p => envGet h fuel p name
        | none => none

/-- `Environment.assign`: walk until the binding is found, honouring
`consts`; the error strings are the `NameError` messages of env.py. -/
def envAssign (h : Heap) : Nat → Nat → String → Value → Except String Heap
  | 0, _, name, _ => .error s!"Attempt to assign to undefined variable {name}"
  | fuel + 1, e, name, v =>
    match h.get? e with
    | none => .error s!"Attempt to assign to undefined variable {name}"
    | some fr =>
      if (alookup fr.values name).isSome then
        if fr.consts.contains name then
          .error s!"Attempt to assign to constant {name}"
        else
          .ok (h.set e { fr with values := aset fr.values name v })
      else
        match fr.parent with
        | some p => envAssign h fuel p name v
        | none => .error s!"Attempt to assign to undefined variable {name}"

/-- `Interpreter._function_env`: nearest enclosing function scope, else the
globals frame `0`. -/
def functionEnv (h : Heap) : Nat → Nat → Nat
  | 0, _ => 0
  | fuel + 1, e =>
    match h.get? e with
    | none => 0
    | some fr =>
      if fr.is_function_scope then e
      else
        match fr.parent with
        | some p => functionEnv h fuel p
        | none => 0

/-! ## Tree interpreter (interpreter.py)

`_ReturnSignal` and `InterpreterError` are the two non-local outcomes the
embedded statement fragment can produce (`_BreakSignal` needs a
`BreakStmt`, which no embedded program contains).  `fuel` bounds recursion
and loop iterations; every theorem below either fixes it concretely or
reaches its outcome before the bound. -/

/-- A non-local outcome: an `InterpreterError` (also standing for host
exceptions that the top level converts into one) or a `_ReturnSignal`. -/
inductive Sig where
  | err (msg : String)
  | ret (v : Value)

/-- Result of evaluating/executing: a value or a propagating signal. -/
abbrev IRes (α : Type) := Except Sig α

/-- Lift a Python-operation result into the interpreter. -/
def liftPy (r : Except String Value) (h : Heap) : IRes Value × Heap :=
  match r with
  | .ok v => (.ok v, h)
  | .error m => (.error (.err m), h)

/-- Lift a Python comparison into the interpreter as a `bool` value. -/
def liftPyB (r : Except String Bool) (h : Heap) : IRes Value × Heap :=
  match r with
  | .ok b => (.ok (.vbool b), h)
  | .error m => (.error (.err m), h)

mutual

/-- `Interpreter._hoist_vars` one statement: pre-define `var` declarations
as `null` in the nearest function scope, recurse into blocks, skip
functions. -/
def hoistVar : Stmt → Nat → Heap → Heap
  | .letStmt name _ _ true, env, h =>
    let fe := functionEnv h (h.length + 1) env
    match h.get? fe with
    | some fr =>
      if (alookup fr.values name).isSome then h
      else envDefine h fe name .vnull false
    | none => h
  | .blockStmt body, env, h => hoistVars body env h
  | _, _, h => h

/-- `Interpreter._hoist_vars` over a statement list. -/
def hoistVars : List Stmt → Nat → Heap → Heap
  | [], _, h => h
  | s :: rest, env, h => hoistVars rest env (hoistVar s env h)

end

/-- The `InterpreterError` message of `Function.call` on an arity
mismatch. -/
def arityErrMsg (np na : Nat) : String :=
  s!"Function expected {np} args but got {na}"

/-- Task selector for the single fuelled interpreter function
`interpRun` (Lean 4.14 mutual definitions do not reduce definitionally,
so the mutually recursive interpreter entry points are cases of one
structurally fuelled function; the wrappers below restore the source
names and signatures).  Statement tasks return `vnull`; `evalAs` returns
the argument values as a `vlist`. -/
inductive ITask where
  | evalE (e : Expr) (env : Nat)
  | evalAs (es : List Expr) (env : Nat)
  | execS (s : Stmt) (env : Nat)
  | execSs (ss : List Stmt) (env : Nat)
  | forLoop (name : String) (endVal : Value) (stepVal : Value) (sq : ℚ)
      (body : List Stmt) (env : Nat)
  | fnCall (name : Option String) (params : List String) (body : List Stmt)
      (closure : Nat) (args : List Value)
  | astCall (name : Option String) (params : List String) (body : List Stmt)
      (args : List Value)

/-- The interpreter: `Interpreter._eval` (`evalE`), argument evaluation
(`evalAs`), `Interpreter._execute` (`execS`), statement sequences
(`execSs`), the `ForStmt` while-loop (`forLoop`), `Function.call`
(`fnCall`) and `Interpreter.call_function_ast` (`astCall`). -/
def interpRun : Nat → ITask → Heap → IRes Value × Heap
  | 0, _, h => (.error (.err "fuel exhausted"), h)
  | fuel + 1, t, h =>
    match t with
    | .evalE e env =>
      match e with
      | .lit v => (.ok v, h)
      | .evar name =>
        if name = "break" then
          (.error (.err "Runtime error: 'break' used as an identifier/variable."), h)
        else
          match envGet h (h.length + 1) env name with
          | some v => (.ok v, h)
          | none => (.error (.err s!"Undefined variable '{name}'"), h)
      | .binary l op r =>
        if op = "&&" then
          match interpRun fuel (.evalE l env) h with
          | (.error s, h') => (.error s, h')
          | (.ok lv, h1) =>
            if ¬ Interpreter.is_truthy lv then (.ok lv, h1)
            else interpRun fuel (.evalE r env) h1
        else if op = "||" then
          match interpRun fuel (.evalE l env) h with
          | (.error s, h') => (.error s, h')
          | (.ok lv, h1) =>
            if Interpreter.is_truthy lv then (.ok lv, h1)
            else interpRun fuel (.evalE r env) h1
        else
          match interpRun fuel (.evalE l env) h with
          | (.error s, h') => (.error s, h')
          | (.ok lv, h1) =>
            match interpRun fuel (.evalE r env) h1 with
            | (.error s, h') => (.error s, h')
            | (.ok rv, h2) =>
              if op = "+" then
                if isStr lv || isStr rv then
                  (.ok (.vstr (to_string_impl lv ++ to_string_impl rv)), h2)
                else liftPy (pyAdd lv rv) h2
              else if op = "-" then liftPy (pySub lv rv) h2
              else if op = "*" then liftPy (pyMul lv rv) h2
              else if op = "/" then liftPy (pyDiv lv rv) h2
              else if op = "%" then liftPy (pyMod lv rv) h2
              else if op = "==" then (.ok (.vbool (pyEq lv rv)), h2)
              else if op = "!=" then (.ok (.vbool (! pyEq lv rv)), h2)
              else if op = "<" then liftPyB (pyLt lv rv) h2
              else if op = "<=" then liftPyB (pyLe lv rv) h2
              else if op = ">" then liftPyB (pyGt lv rv) h2
              else if op = ">=" then liftPyB (pyGe lv rv) h2
              else (.error (.err s!"Unsupported binary operator: {op}"), h2)
      | .assign target value =>
        match interpRun fuel (.evalE value env) h with
        | (.error s, h') => (.error s, h')
        | (.ok val, h1) =>
          match target with
          | .evar tname =>
            match envAssign h1 (h1.length + 1) env tname val with
            | .ok h2 => (.ok val, h2)
            | .error m => (.error (.err m), h1)
          | _ => (.error (.err "Invalid assignment target"), h1)
      | .call callee args =>
        match interpRun fuel (.evalE callee env) h with
        | (.error s, h') => (.error s, h')
        | (.ok cv, h1) =>
          match interpRun fuel (.evalAs args env) h1 with
          | (.error s, h') => (.error s, h')
          | (.ok (.vlist argv), h2) =>
            match cv with
            | .vfunc n p b c => interpRun fuel (.fnCall n p b c argv) h2
            | .vrecurWrapper n p b =>
              -- the wrapper is a plain host callable: an InterpreterError
              -- raised inside it is re-wrapped by the builtin-call branch
              match interpRun fuel (.astCall n p b argv) h2 with
              | (.ok v, h3) => (.ok v, h3)
              | (.error (.ret v), h3) => (.error (.ret v), h3)
              | (.error (.err m), h3) =>
                (.error (.err s!"Error in builtin call: {m}"), h3)
            | _ => (.error (.err "Attempted to call a non-callable value"), h2)
          | (.ok _, h2) =>
            -- unreachable: evalAs always yields a vlist
            (.error (.err "internal: argument list"), h2)
      | .funcExpr n p b => (.ok (.vfunc n p b env), h)
    | .evalAs es env =>
      -- evaluate call arguments left to right
      match es with
      | [] => (.ok (.vlist []), h)
      | e :: rest =>
        match interpRun fuel (.evalE e env) h with
        | (.error s, h') => (.error s, h')
        | (.ok v, h1) =>
          match interpRun fuel (.evalAs rest env) h1 with
          | (.error s, h') => (.error s, h')
          | (.ok (.vlist vs), h2) => (.ok (.vlist (v :: vs)), h2)
          | (.ok _, h2) => (.error (.err "internal: argument list"), h2)
    | .execS s env =>
      -- `Interpreter._execute`; `ThrowStmt` and `TryCatchStmt` have no
      -- case in the source and fall through to the final
      -- `raise InterpreterError(f"Unknown statement type: ...")`
      match s with
      | .exprStmt e =>
        match interpRun fuel (.evalE e env) h with
        | (.error sg, h') => (.error sg, h')
        | (.ok _, h1) => (.ok .vnull, h1)
      | .letStmt name init is_const is_var =>
        match (match init with
               | some e => interpRun fuel (.evalE e env) h
               | none => (.ok Value.vnull, h)) with
        | (.error sg, h') => (.error sg, h')
        | (.ok v, h1) =>
          let target := if is_var then functionEnv h1 (h1.length + 1) env else env
          (.ok .vnull, envDefine h1 target name v is_const)
      | .blockStmt body =>
        let newId := h.length
        interpRun fuel (.execSs body newId) (h ++ [newFrame (some env) false])
      | .forStmt name start stop step body =>
        match interpRun fuel (.evalE start env) h with
        | (.error sg, h') => (.error sg, h')
        | (.ok sv, h1) =>
          match interpRun fuel (.evalE stop env) h1 with
          | (.error sg, h') => (.error sg, h')
          | (.ok ev, h2) =>
            match (match step with
                   | some se => interpRun fuel (.evalE se env) h2
                   | none => (.ok (Value.vint 1), h2)) with
            | (.error sg, h') => (.error sg, h')
            | (.ok stv, h3) =>
              let loopEnvId := h3.length
              let h4 := envDefine (h3 ++ [newFrame (some env) false]) loopEnvId name sv false
              match ratVal stv with
              | none => (.error (.err "for-loop 'step' must be a number"), h4)
              | some sq =>
                if sq = 0 then
                  (.error (.err "for-loop 'step' must not be zero"), h4)
                else interpRun fuel (.forLoop name ev stv sq body loopEnvId) h4
      | .functionStmt name params body =>
        (.ok .vnull, envDefine h env name (.vfunc (some name) params body env) false)
      | .returnStmt v =>
        match v with
        | some e =>
          match interpRun fuel (.evalE e env) h with
          | (.error sg, h') => (.error sg, h')
          | (.ok val, h1) => (.error (.ret val), h1)
        | none => (.error (.ret .vnull), h)
      | .throwStmt _ => (.error (.err "Unknown statement type: ThrowStmt"), h)
      | .tryCatchStmt _ _ _ =>
        (.error (.err "Unknown statement type: TryCatchStmt"), h)
    | .execSs ss env =>
      -- execute a statement list in order
      match ss with
      | [] => (.ok .vnull, h)
      | s :: rest =>
        match interpRun fuel (.execS s env) h with
        | (.error sg, h') => (.error sg, h')
        | (.ok _, h1) => interpRun fuel (.execSs rest env) h1
    | .forLoop name endVal stepVal sq body env =>
      -- the `while _cond(...)` loop of the `ForStmt` case: test the
      -- sign-appropriate inclusive comparison, run the body, then
      -- increment the iterator by the raw step value
      match envGet h (h.length + 1) env name with
      | none => (.error (.err s!"Undefined variable '{name}'"), h)
      | some cur =>
        match (if sq > 0 then pyLe cur endVal else pyGe cur endVal) with
        | .error _ =>
          (.error (.err "for-loop comparison failed (non-comparable values)"), h)
        | .ok false => (.ok .vnull, h)
        | .ok true =>
          match interpRun fuel (.execSs body env) h with
          | (.error sg, h') => (.error sg, h')
          | (.ok _, h1) =>
            match envGet h1 (h1.length + 1) env name with
            | none => (.error (.err s!"Undefined variable '{name}'"), h1)
            | some c2 =>
              -- both the addition and the assignment sit inside the
              -- `Failed to increment loop variable` wrapper in the source
              match pyAdd c2 stepVal with
              | .error m =>
                (.error (.err s!"Failed to increment loop variable: {m}"), h1)
              | .ok nv =>
                match envAssign h1 (h1.length + 1) env name nv with
                | .error m =>
                  (.error (.err s!"Failed to increment loop variable: {m}"), h1)
                | .ok h2 => interpRun fuel (.forLoop name endVal stepVal sq body env) h2
    | .fnCall name params body closure args =>
      -- `interpreter.Function.call`: strict arity check, fresh
      -- function-scope environment over the closure, parameters bound by
      -- `zip`, the function bound `const` under its own name,
      -- `_ReturnSignal` caught
      if args.length ≠ params.length then
        (.error (.err (arityErrMsg params.length args.length)), h)
      else
        let localId := h.length
        let h1 := h ++ [newFrame (some closure) true]
        let h2 := envDefineAll h1 localId (params.zip args)
        let h3 := match name with
          | some nm => envDefine h2 localId nm (.vfunc name params body closure) true
          | none => h2
        match interpRun fuel (.execSs body localId) h3 with
        | (.ok _, h4) => (.ok .vnull, h4)
        | (.error (.ret v), h4) => (.ok v, h4)
        | (.error (.err m), h4) => (.error (.err m), h4)
    | .astCall name params body args =>
      -- `Interpreter.call_function_ast`: the VM bridge.  `FunctionExpr`
      -- nodes carry no `closure_env` attribute, so the closure falls back
      -- to the interpreter globals (frame 0); parameters are bound by
      -- `zip` (extras silently dropped, missing parameters left unbound);
      -- a named function is bound to a `_recur_wrapper` host callable
      let localId := h.length
      let h1 := h ++ [newFrame (some 0) false]
      let h2 := envDefineAll h1 localId (params.zip args)
      let h3 := match name with
        | some nm => envDefine h2 localId nm (.vrecurWrapper name params body) true
        | none => h2
      match interpRun fuel (.execSs body localId) h3 with
      | (.ok _, h4) => (.ok .vnull, h4)
      | (.error (.ret v), h4) => (.ok v, h4)
      | (.error (.err m), h4) => (.error (.err m), h4)

/-- `Interpreter._eval`. -/
def evalExpr (fuel : Nat) (e : Expr) (env : Nat) (h : Heap) :
    IRes Value × Heap :=
  interpRun fuel (.evalE e env) h

/-- Evaluate call arguments left to right. -/
def evalArgs (fuel : Nat) (es : List Expr) (env : Nat) (h : Heap) :
    IRes (List Value) × Heap :=
  match interpRun fuel (.evalAs es env) h with
  | (.ok (.vlist vs), h') => (.ok vs, h')
  | (.ok _, h') => (.error (.err "internal: argument list"), h')
  | (.error s, h') => (.error s, h')

/-- `Interpreter._execute`. -/
def execStmt (fuel : Nat) (s : Stmt) (env : Nat) (h : Heap) :
    IRes Unit × Heap :=
  match interpRun fuel (.execS s env) h with
  | (.ok _, h') => (.ok (), h')
  | (.error sg, h') => (.error sg, h')

/-- Execute a statement list in order. -/
def execStmts (fuel : Nat) (ss : List Stmt) (env : Nat) (h : Heap) :
    IRes Unit × Heap :=
  match interpRun fuel (.execSs ss env) h with
  | (.ok _, h') => (.ok (), h')
  | (.error sg, h') => (.error sg, h')

/-- `interpreter.Function.call`. -/
def functionCall (fuel : Nat) (name : Option String) (params : List String)
    (body : List Stmt) (closure : Nat) (args : List Value) (h : Heap) :
    IRes Value × Heap :=
  interpRun fuel (.fnCall name params body closure args) h

/-- `Interpreter.call_function_ast`. -/
def callFunctionAst (fuel : Nat) (name : Option String)
    (params : List String) (body : List Stmt) (args : List Value)
    (h : Heap) : IRes Value × Heap :=
  interpRun fuel (.astCall name params body args) h

/-- `Interpreter.interpret`: hoist `var` declarations into the globals,
execute the statements there, converting an escaping `_ReturnSignal` into
`InterpreterError("return signal")` (the generic `except` clause). -/
def Interpreter.interpret (fuel : Nat) (stmts : List Stmt) :
    Except String Unit × Heap :=
  let h0 : Heap := [newFrame none false]
  let h1 := hoistVars stmts 0 h0
  match execStmts fuel stmts 0 h1 with
  | (.ok _, h) => (.ok (), h)
  | (.error (.err m), h) => (.error m, h)
  | (.error (.ret _), h) => (.error "return signal", h)

/-! ## Bytecode VM (vm.py)

The operand stack is a Lean list with its head as top of stack.  The
handlers that the claims cite are split out under the names they carry in
`VM.run_frame`; the dispatch loop `runFrame` uses them.  The interpreter
heap rides along in `VMSt` because `CALL` on an AST-backed function
delegates to `Interpreter.call_function_ast`. -/

namespace VM

/-- Mutable state shared across frames of one run: the globals dict and
the fallback interpreter's environment heap (frame `0` of the heap is that
interpreter's globals). -/
structure VMSt where
  globals : List (String × Value)
  heap : Heap

/-- `h_load_global`: `globals.get(arg, None)` — an unbound name pushes
`None`, never raising. -/
def h_load_global (g : List (String × Value)) (name : String)
    (stack : List Value) : List Value :=
  ((alookup g name).getD .vnull) :: stack

/-- `h_load_local`: `try push(locals[idx]) except: push(None)` — an
out-of-range index pushes `None` instead of failing. -/
def h_load_local (locals : List Value) (idx : Nat)
    (stack : List Value) : List Value :=
  match locals.get? idx with
  | some v => v :: stack
  | none => .vnull :: stack

/-- `locals_local.extend([None] * (idx - len + 1))` when `idx` is at or
past the current length. -/
def extendLocals (locals : List Value) (idx : Nat) : List Value :=
  if locals.length ≤ idx then
    locals ++ List.replicate (idx - locals.length + 1) .vnull
  else locals

/-- `h_store_local`: extend with `None`s if needed, then write the slot. -/
def h_store_local (locals : List Value) (idx : Nat) (v : Value) :
    List Value :=
  (extendLocals locals idx).set idx v

/-- `h_inc_local`: extend if needed, read the slot treating `None` as `0`,
store slot `+ 1` (Python `curr + 1`, which raises on non-numeric slots —
never an out-of-bounds error). -/
def h_inc_local (locals : List Value) (idx : Nat) :
    Except String (List Value) :=
  let ls := extendLocals locals idx
  let curr := match ls.get? idx with
    | some .vnull => Value.vint 0
    | some v => v
    | none => Value.vint 0
  match pyAdd curr (.vint 1) with
  | .ok v => .ok (ls.set idx v)
  | .error m => .error m

/-- `h_jump_if_ge_local_imm`: read the slot guarded by the bounds and
`None` checks (defaulting to `0`), compare with the immediate. -/
def h_jump_if_ge_local_imm (locals : List Value) (idx : Nat)
    (imm : Value) : Except String Bool :=
  let val := match locals.get? idx with
    | some .vnull => Value.vint 0
    | some v => v
    | none => Value.vint 0
  pyGe val imm

/-- `h_fast_count`: extend if needed and store the limit. -/
def h_fast_count (locals : List Value) (idx : Nat) (limit : Value) :
    List Value :=
  (extendLocals locals idx).set idx limit

/-- `h_jump_if_false` jumps when the popped value is falsy. -/
def h_jump_if_false (cond : Value) : Bool :=
  ¬ VM.is_truthy cond

/-- `h_make_function` in `"CODE"` mode: wrap the Code const. -/
def h_make_function_code (consts : List Const) (constIdx : Nat)
    (fname : String) : Except String Value :=
  match consts.get? constIdx with
  | some (.ccode c) => .ok (.vfnObj (.codeBacked (some fname) c))
  | some _ => .error "MAKE_FUNCTION CODE const is not a Code object"
  | none => .error "IndexError: list index out of range"

/-- `h_make_function` in `"AST"` mode: wrap the stored `FunctionExpr`
node (the FunctionObject name is the node's `name` attribute). -/
def h_make_function_ast (consts : List Const) (constIdx : Nat) :
    Except String Value :=
  match consts.get? constIdx with
  | some (.castFn n p b) => .ok (.vfnObj (.astBacked n p b))
  | some _ => .error "MAKE_FUNCTION AST const is not an AST node"
  | none => .error "IndexError: list index out of range"

/-- The locals vector `h_call` builds for a code-backed callee:
`[None] * nlocals`, then `for i, a in enumerate(args[:argcount]): if i <
len(new_locals): new_locals[i] = a`. -/
def vmCallLocals (nlocals argcount : Nat) (args : List Value) :
    List Value :=
  ((args.take argcount).enum).foldl
    (fun ls ia => if ia.1 < ls.length then ls.set ia.1 ia.2 else ls)
    (List.replicate nlocals .vnull)

/-- Fetch `instrs_local[ip]` with Python list-index semantics: a negative
index counts from the end, an index out of that range raises
`IndexError`. -/
def fetchInstr (instrs : List Instr) (ip : Int) : Except String Instr :=
  if 0 ≤ ip then
    match instrs.get? ip.toNat with
    | some i => .ok i
    | none => .error "IndexError: list index out of range"
  else
    let j : Int := (instrs.length : Int) + ip
    if 0 ≤ j then
      match instrs.get? j.toNat with
      | some i => .ok i
      | none => .error "IndexError: list index out of range"
    else .error "IndexError: list index out of range"

/-- `VM.run_frame`: the dispatch loop, fuelled.  The loop runs while
`ip < len(instructions)` (note `ip` may be negative after an unpatched
jump); fallthrough past the end returns `None`.  `CALL` on a code-backed
function recurses; on an AST-backed function it delegates to
`Interpreter.call_function_ast`, wrapping an `InterpreterError`. -/
def runFrame : Nat → Code → Int → List Value → List Value → VMSt →
    Except String (Value × VMSt)
  | 0, _, _, _, _, _ => .error "fuel exhausted"
  | fuel + 1, code, ip, stack, locals, st =>
    if ip < (code.instructions.length : Int) then
      match fetchInstr code.instructions ip with
      | .error e => .error e
      | .ok instr =>
        let ip' := ip + 1
        match instr with
        | .LOAD_CONST i =>
          match code.consts.get? i with
          | some (.cval v) => runFrame fuel code ip' (v :: stack) locals st
          | some (.ccode c) =>
            runFrame fuel code ip'
              (.vfnObj (.codeBacked none c) :: stack) locals st
          | some (.castFn n p b) =>
            runFrame fuel code ip'
              (.vfnObj (.astBacked n p b) :: stack) locals st
          | none => .error "IndexError: list index out of range"
        | .LOAD_GLOBAL n =>
          runFrame fuel code ip' (h_load_global st.globals n stack) locals st
        | .STORE_GLOBAL n =>
          match stack with
          | [] => .error "Stack underflow"
          | v :: rest =>
            runFrame fuel code ip' rest locals
              { st with globals := aset st.globals n v }
        | .LOAD_LOCAL i =>
          runFrame fuel code ip' (h_load_local locals i stack) locals st
        | .STORE_LOCAL i =>
          match stack with
          | [] => .error "Stack underflow"
          | v :: rest =>
            runFrame fuel code ip' rest (h_store_local locals i v) st
        | .POP =>
          match stack with
          | [] => .error "Stack underflow"
          | _ :: rest => runFrame fuel code ip' rest locals st
        | .ADD =>
          match stack with
          | b :: a :: rest =>
            if isStr a || isStr b then
              runFrame fuel code ip'
                (.vstr (to_string_impl a ++ to_string_impl b) :: rest) locals st
            else
              match pyAdd a b with
              | .ok v => runFrame fuel code ip' (v :: rest) locals st
              | .error m => .error s!"ADD error: {m}"
          | _ => .error "Stack underflow"
        | .SUB =>
          match stack with
          | b :: a :: rest =>
            match pySub a b with
            | .ok v => runFrame fuel code ip' (v :: rest) locals st
            | .error m => .error s!"SUB error: {m}"
          | _ => .error "Stack underflow"
        | .MUL =>
          match stack with
          | b :: a :: rest =>
            match pyMul a b with
            | .ok v => runFrame fuel code ip' (v :: rest) locals st
            | .error m => .error s!"MUL error: {m}"
          | _ => .error "Stack underflow"
        | .DIV =>
          match stack with
          | b :: a :: rest =>
            match pyDiv a b with
            | .ok v => runFrame fuel code ip' (v :: rest) locals st
            | .error m => .error s!"DIV error: {m}"
          | _ => .error "Stack underflow"
        | .MOD =>
          match stack with
          | b :: a :: rest =>
            match pyMod a b with
            | .ok v => runFrame fuel code ip' (v :: rest) locals st
            | .error m => .error s!"MOD error: {m}"
          | _ => .error "Stack underflow"
        | .EQ =>
          match stack with
          | b :: a :: rest =>
            runFrame fuel code ip' (.vbool (pyEq a b) :: rest) locals st
          | _ => .error "Stack underflow"
        | .NEQ =>
          match stack with
          | b :: a :: rest =>
            runFrame fuel code ip' (.vbool (! pyEq a b) :: rest) locals st
          | _ => .error "Stack underflow"
        | .LT =>
          match stack with
          | b :: a :: rest =>
            match pyLt a b with
            | .ok c => runFrame fuel code ip' (.vbool c :: rest) locals st
            | .error m => .error m
          | _ => .error "Stack underflow"
        | .LTE =>
          match stack with
          | b :: a :: rest =>
            match pyLe a b with
            | .ok c => runFrame fuel code ip' (.vbool c :: rest) locals st
            | .error m => .error m
          | _ => .error "Stack underflow"
        | .GT =>
          match stack with
          | b :: a :: rest =>
            match pyGt a b with
            | .ok c => runFrame fuel code ip' (.vbool c :: rest) locals st
            | .error m => .error m
          | _ => .error "Stack underflow"
        | .GTE =>
          match stack with
          | b :: a :: rest =>
            match pyGe a b with
            | .ok c => runFrame fuel code ip' (.vbool c :: rest) locals st
            | .error m => .error m
          | _ => .error "Stack underflow"
        | .NOT =>
          match stack with
          | a :: rest =>
            runFrame fuel code ip' (.vbool (! VM.is_truthy a) :: rest) locals st
          | _ => .error "Stack underflow"
        | .JUMP t => runFrame fuel code t stack locals st
        | .JUMP_IF_FALSE t =>
          match stack with
          | [] => .error "Stack underflow"
          | cond :: rest =>
            if h_jump_if_false cond then runFrame fuel code t rest locals st
            else runFrame fuel code ip' rest locals st
        | .MAKE_FUNCTION_CODE cidx fname _argc _nloc =>
          match h_make_function_code code.consts cidx fname with
          | .ok v => runFrame fuel code ip' (v :: stack) locals st
          | .error m => .error m
        | .MAKE_FUNCTION_AST cidx =>
          match h_make_function_ast code.consts cidx with
          | .ok v => runFrame fuel code ip' (v :: stack) locals st
          | .error m => .error m
        | .CALL argc =>
          if stack.length < argc then .error "Stack underflow"
          else
            let args := (stack.take argc).reverse
            match stack.drop argc with
            | [] => .error "Stack underflow"
            | callee :: rest =>
              match callee with
              | .vfnObj (.codeBacked _ sub) =>
                let newLocals := vmCallLocals sub.nlocals sub.argcount args
                match runFrame fuel sub 0 [] newLocals st with
                | .ok (v, st') => runFrame fuel code ip' (v :: rest) locals st'
                | .error m => .error m
              | .vfnObj (.astBacked n p b) =>
                match callFunctionAst fuel n p b args st.heap with
                | (.ok v, hp) =>
                  runFrame fuel code ip' (v :: rest) locals { st with heap := hp }
                | (.error (.err m), _) => .error s!"Interpreter error: {m}"
                | (.error (.ret _), _) => .error "Interpreter error: return signal"
              | .vfunc n p b c =>
                -- interpreter Function instances expose `.call`
                match functionCall fuel n p b c args st.heap with
                | (.ok v, hp) =>
                  runFrame fuel code ip' (v :: rest) locals { st with heap := hp }
                | (.error (.err m), _) =>
                  .error s!"Error calling interpreter function: {m}"
                | (.error (.ret _), _) =>
                  .error "Error calling interpreter function: return signal"
              | .vrecurWrapper n p b =>
                -- plain host callable: the builtin branch
                match callFunctionAst fuel n p b args st.heap with
                | (.ok v, hp) =>
                  runFrame fuel code ip' (v :: rest) locals { st with heap := hp }
                | (.error (.err m), _) => .error s!"Builtin call error: {m}"
                | (.error (.ret _), _) => .error "Builtin call error: return signal"
              | _ => .error "Attempted to call non-callable"
        | .RETURN =>
          match stack with
          | v :: _ => .ok (v, st)
          | [] => .ok (.vnull, st)
        | .INC_LOCAL i =>
          match h_inc_local locals i with
          | .ok ls => runFrame fuel code ip' stack ls st
          | .error m => .error m
        | .JUMP_IF_GE_LOCAL_IMM i imm t =>
          match h_jump_if_ge_local_imm locals i imm with
          | .ok true => runFrame fuel code t stack locals st
          | .ok false => runFrame fuel code ip' stack locals st
          | .error m => .error m
        | .FAST_COUNT i limit =>
          runFrame fuel code ip' stack (h_fast_count locals i limit) st
    else
      .ok (.vnull, st)

/-- `VM.run_code`: top-level frame with `[None] * nlocals` locals and an
empty stack. -/
def run_code (fuel : Nat) (code : Code) (st : VMSt) :
    Except String (Value × VMSt) :=
  runFrame fuel code 0 [] (List.replicate code.nlocals .vnull) st

end VM

/-! ## Bytecode compiler (compiler.py)

Compilation state mirrors the mutable fields of `Compiler`; emitting
returns a new state, a `CompileError` is an `Except.error`.  Jump
placeholders are emitted with target `-1` and patched afterwards, exactly
as in the source (`_emit_jump` / `_patch_jump`). -/

/-- The mutable fields of `Compiler` (verbosity dropped; `argcount` is
supplied at `Code` creation from the parameter list as in the source). -/
structure CSt where
  instructions : List Instr
  consts : List Const
  locals : List (String × Nat)
  next_local : Nat
  cname : String
  loop_stack : List (Nat × List Nat)

/-- A fresh compiler for the unit `name`. -/
def CSt.init (name : String) : CSt :=
  { instructions := [], consts := [], locals := [], next_local := 0,
    cname := name, loop_stack := [] }

/-- `self.locals` lookup. -/
def lookupLocal : List (String × Nat) → String → Option Nat
  | [], _ => none
  | (k, i) :: rest, key => if k = key then some i else lookupLocal rest key

/-- `dict[key] = n` on the name-to-slot dict. -/
def asetNat : List (String × Nat) → String → Nat → List (String × Nat)
  | [], key, n => [(key, n)]
  | (k, m) :: rest, key, n =>
    if k = key then (k, n) :: rest else (k, m) :: asetNat rest key n

/-- `Compiler._add_const`: append and return the index. -/
def add_const (st : CSt) (c : Const) : Nat × CSt :=
  (st.consts.length, { st with consts := st.consts ++ [c] })

/-- `Compiler._emit`. -/
def emit (st : CSt) (i : Instr) : CSt :=
  { st with instructions := st.instructions ++ [i] }

/-- `Compiler._emit_jump` for `JUMP`: placeholder target `-1`, returns the
instruction index for patching. -/
def emit_jump (st : CSt) : Nat × CSt :=
  (st.instructions.length, emit st (.JUMP (-1)))

/-- `Compiler._emit_jump` for `JUMP_IF_FALSE`. -/
def emit_jump_if_false (st : CSt) : Nat × CSt :=
  (st.instructions.length, emit st (.JUMP_IF_FALSE (-1)))

/-- `Compiler._patch_jump`: replace the argument of the instruction at
`idx` (only jump instructions are ever patched). -/
def patch_jump (st : CSt) (idx : Nat) (target : Nat) : CSt :=
  match st.instructions.get? idx with
  | some (.JUMP _) =>
    { st with instructions := st.instructions.set idx (.JUMP (target : Int)) }
  | some (.JUMP_IF_FALSE _) =>
    { st with
      instructions := st.instructions.set idx (.JUMP_IF_FALSE (target : Int)) }
  | _ => st

/-- `Compiler._in_function`. -/
def in_function (st : CSt) : Bool :=
  st.cname ≠ "<module>"

/-- `Compiler._alloc_local`. -/
def alloc_local (st : CSt) (name : String) : Nat × CSt :=
  match lookupLocal st.locals name with
  | some i => (i, st)
  | none =>
    (st.next_local,
     { st with locals := st.locals ++ [(name, st.next_local)],
               next_local := st.next_local + 1 })

/-- Parameter slots `0..n-1` in declaration order
(`sub.locals[p] = sub.next_local; sub.next_local += 1`). -/
def allocParams : List String → List (String × Nat) → Nat →
    List (String × Nat) × Nat
  | [], acc, n => (acc, n)
  | p :: rest, acc, n => allocParams rest (asetNat acc p n) (n + 1)

/-- Task selector for the single fuelled compiler function `compileRun`
(as with the interpreter, Lean 4.14 mutual definitions do not reduce
definitionally; the wrappers below restore the source names).  The fuel
only bounds AST depth; every theorem below supplies enough of it, and
theorems quantifying over programs quantify over the fuel as well. -/
inductive CTask where
  | cExpr (e : Expr)
  | cAssignGen (target : Expr) (value : Expr)
  | cExprs (es : List Expr)
  | cStmt (s : Stmt)
  | cStmts (ss : List Stmt)
  | cFn (fname : String) (params : List String) (body : List Stmt)

/-- Result of a compiler task: an updated state, or (for `cFn`) the
compiled `Code` object. -/
inductive COut where
  | cst (st : CSt)
  | ccode (c : Code)

/-- Unpack a state result (the `cFn` case never flows here). -/
def COut.asSt : COut → Except String CSt
  | .cst st => .ok st
  | .ccode _ => .error "internal: expected compiler state"

/-- Unpack a code result. -/
def COut.asCode : COut → Except String Code
  | .ccode c => .ok c
  | .cst _ => .error "internal: expected code object"

/-- The compiler: `Compiler._compile_expr` (`cExpr`, with the general
assignment path as `cAssignGen`), argument lists (`cExprs`),
`Compiler._compile_stmt` (`cStmt`), statement lists (`cStmts`) and
`Compiler.compile_function` (`cFn`). -/
def compileRun : Nat → CTask → CSt → Except String COut
  | 0, _, _ => .error "compiler fuel exhausted"
  | fuel + 1, t, st =>
    match t with
    | .cExpr e =>
      match e with
      | .lit v =>
        let (i, st1) := add_const st (.cval v)
        pure (.cst (emit st1 (.LOAD_CONST i)))
      | .evar name =>
        match lookupLocal st.locals name with
        | some i => pure (.cst (emit st (.LOAD_LOCAL i)))
        | none => pure (.cst (emit st (.LOAD_GLOBAL name)))
      | .binary l op r =>
        if op = "&&" then do
          let .cst st1 ← compileRun fuel (.cExpr l) st
            | .error "internal: expected compiler state"
          let (jfalse, st2) := emit_jump_if_false st1
          let .cst st3 ← compileRun fuel (.cExpr r) st2
            | .error "internal: expected compiler state"
          pure (.cst (patch_jump st3 jfalse st3.instructions.length))
        else if op = "||" then do
          let .cst st1 ← compileRun fuel (.cExpr l) st
            | .error "internal: expected compiler state"
          -- the placeholder of this JUMP_IF_FALSE is never patched (source
          -- comment: "simple approach -- not perfect short-circuit semantics")
          let (_jskip, st2) := emit_jump_if_false st1
          compileRun fuel (.cExpr r) st2
        else do
          let .cst st1 ← compileRun fuel (.cExpr l) st
            | .error "internal: expected compiler state"
          let .cst st2 ← compileRun fuel (.cExpr r) st1
            | .error "internal: expected compiler state"
          if op = "+" then pure (.cst (emit st2 .ADD))
          else if op = "-" then pure (.cst (emit st2 .SUB))
          else if op = "*" then pure (.cst (emit st2 .MUL))
          else if op = "/" then pure (.cst (emit st2 .DIV))
          else if op = "%" then pure (.cst (emit st2 .MOD))
          else if op = "==" then pure (.cst (emit st2 .EQ))
          else if op = "!=" then pure (.cst (emit st2 .NEQ))
          else if op = "<" then pure (.cst (emit st2 .LT))
          else if op = "<=" then pure (.cst (emit st2 .LTE))
          else if op = ">" then pure (.cst (emit st2 .GT))
          else if op = ">=" then pure (.cst (emit st2 .GTE))
          else .error s!"Unsupported binary operator '{op}'"
      | .assign target value =>
        -- `x := x + 1` / `x := 1 + x` fuses to INC_LOCAL inside a function
        -- (the literal comparison is Python `right.value == 1`)
        let incName? : Option String :=
          match target, value with
          | .evar tname, .binary (.evar ln) "+" (.lit v) =>
            if ln == tname && pyEq v (.vint 1) then some tname else none
          | .evar tname, .binary (.lit v) "+" (.evar rn) =>
            if rn == tname && pyEq v (.vint 1) then some tname else none
          | _, _ => none
        match incName? with
        | some tname =>
          if in_function st then
            let (idx, st1) :=
              match lookupLocal st.locals tname with
              | some i => (i, st)
              | none => alloc_local st tname
            pure (.cst (emit (emit st1 (.INC_LOCAL idx)) (.LOAD_LOCAL idx)))
          else
            compileRun fuel (.cAssignGen target value) st
        | none => compileRun fuel (.cAssignGen target value) st
      | .funcExpr n p b =>
        let (i, st1) := add_const st (.castFn n p b)
        pure (.cst (emit st1 (.MAKE_FUNCTION_AST i)))
      | .call callee args => do
        let .cst st1 ← compileRun fuel (.cExpr callee) st
          | .error "internal: expected compiler state"
        let .cst st2 ← compileRun fuel (.cExprs args) st1
          | .error "internal: expected compiler state"
        pure (.cst (emit st2 (.CALL args.length)))
    | .cAssignGen target value =>
      -- the non-fused branch of `Assign`: store then reload so the
      -- assigned value is the expression result
      match target with
      | .evar name => do
        let .cst st1 ← compileRun fuel (.cExpr value) st
          | .error "internal: expected compiler state"
        match lookupLocal st1.locals name with
        | some i => pure (.cst (emit (emit st1 (.STORE_LOCAL i)) (.LOAD_LOCAL i)))
        | none =>
          pure (.cst (emit (emit st1 (.STORE_GLOBAL name)) (.LOAD_GLOBAL name)))
      | _ => .error "Invalid assignment target"
    | .cExprs es =>
      match es with
      | [] => pure (.cst st)
      | e :: rest => do
        let .cst st1 ← compileRun fuel (.cExpr e) st
          | .error "internal: expected compiler state"
        compileRun fuel (.cExprs rest) st1
    | .cStmt s =>
      -- `Compiler._compile_stmt`; `ThrowStmt` / `TryCatchStmt` have no
      -- case in the source and hit the trailing
      -- `raise CompileError(f"Unhandled statement type in compiler: ...")`
      match s with
      | .blockStmt body => compileRun fuel (.cStmts body) st
      | .letStmt name init _ _ => do
        let .cst st1 ← (match init with
            | none =>
              let (i, st') := add_const st (.cval .vnull)
              pure (COut.cst (emit st' (.LOAD_CONST i)))
            | some e => compileRun fuel (.cExpr e) st)
          | .error "internal: expected compiler state"
        if in_function st1 then
          let (idx, st2) :=
            match lookupLocal st1.locals name with
            | some i => (i, st1)
            | none => alloc_local st1 name
          pure (.cst (emit st2 (.STORE_LOCAL idx)))
        else
          pure (.cst (emit st1 (.STORE_GLOBAL name)))
      | .exprStmt e => do
        let .cst st1 ← compileRun fuel (.cExpr e) st
          | .error "internal: expected compiler state"
        pure (.cst (emit st1 .POP))
      | .forStmt name start stop step body => do
        let (iter_idx, st1) := alloc_local st name
        let (end_idx, st2) := alloc_local st1 s!"__for_end_{iter_idx}"
        let (step_idx, st3) := alloc_local st2 s!"__for_step_{iter_idx}"
        let .cst st4 ← compileRun fuel (.cExpr start) st3
          | .error "internal: expected compiler state"
        let st5 := emit st4 (.STORE_LOCAL iter_idx)
        let .cst st6 ← compileRun fuel (.cExpr stop) st5
          | .error "internal: expected compiler state"
        let st7 := emit st6 (.STORE_LOCAL end_idx)
        let .cst st8 ← (match step with
            | some e => compileRun fuel (.cExpr e) st7
            | none =>
              let (i, st') := add_const st7 (.cval (.vint 1))
              pure (COut.cst (emit st' (.LOAD_CONST i))))
          | .error "internal: expected compiler state"
        let st9 := emit st8 (.STORE_LOCAL step_idx)
        let start_check_ip := st9.instructions.length
        -- check step > 0
        let st10 := emit st9 (.LOAD_LOCAL step_idx)
        let (zi, st11) := add_const st10 (.cval (.vint 0))
        let st12 := emit st11 (.LOAD_CONST zi)
        let st13 := emit st12 .GT
        let (jsteppos, st14) := emit_jump_if_false st13
        -- step > 0 branch: iter <= end ?
        let st15 := emit st14 (.LOAD_LOCAL iter_idx)
        let st16 := emit st15 (.LOAD_LOCAL end_idx)
        let st17 := emit st16 .LTE
        let (jexit1, st18) := emit_jump_if_false st17
        let (jgoto_body, st19) := emit_jump st18
        -- else branch (step <= 0): iter >= end ?
        let st20 := patch_jump st19 jsteppos st19.instructions.length
        let st21 := emit st20 (.LOAD_LOCAL iter_idx)
        let st22 := emit st21 (.LOAD_LOCAL end_idx)
        let st23 := emit st22 .GTE
        let (jexit2, st24) := emit_jump_if_false st23
        -- body label
        let st25 := patch_jump st24 jgoto_body st24.instructions.length
        let st26 := { st25 with
          loop_stack := (st25.instructions.length, []) :: st25.loop_stack }
        let .cst st27 ← compileRun fuel (.cStmts body) st26
          | .error "internal: expected compiler state"
        -- increment: iter = iter + step, then jump back
        let st28 := emit st27 (.LOAD_LOCAL iter_idx)
        let st29 := emit st28 (.LOAD_LOCAL step_idx)
        let st30 := emit st29 .ADD
        let st31 := emit st30 (.STORE_LOCAL iter_idx)
        let st32 := emit st31 (.JUMP (start_check_ip : Int))
        let loop_end := st32.instructions.length
        let st33 := patch_jump st32 jexit1 loop_end
        let st34 := patch_jump st33 jexit2 loop_end
        -- patch recorded breaks, pop the loop context
        match st34.loop_stack with
        | (_, bps) :: rest =>
          pure (.cst { (bps.foldl (fun s bp => patch_jump s bp loop_end) st34) with
                 loop_stack := rest })
        | [] => pure (.cst st34)
      | .functionStmt name params body => do
        let .ccode codeObj ← compileRun fuel (.cFn name params body) st
          | .error "internal: expected code object"
        let (cidx, st1) := add_const st (.ccode codeObj)
        let st2 := emit st1
          (.MAKE_FUNCTION_CODE cidx name codeObj.argcount codeObj.nlocals)
        pure (.cst (emit st2 (.STORE_GLOBAL name)))
      | .returnStmt v => do
        let .cst st1 ← (match v with
            | some e => compileRun fuel (.cExpr e) st
            | none =>
              let (i, st') := add_const st (.cval .vnull)
              pure (COut.cst (emit st' (.LOAD_CONST i))))
          | .error "internal: expected compiler state"
        pure (.cst (emit st1 .RETURN))
      | .throwStmt _ =>
        .error "Unhandled statement type in compiler: ThrowStmt"
      | .tryCatchStmt _ _ _ =>
        .error "Unhandled statement type in compiler: TryCatchStmt"
    | .cStmts ss =>
      match ss with
      | [] => pure (.cst st)
      | s :: rest => do
        let .cst st1 ← compileRun fuel (.cStmt s) st
          | .error "internal: expected compiler state"
        compileRun fuel (.cStmts rest) st1
    | .cFn fname params body => do
      -- `Compiler.compile_function`: fresh sub-compiler named after the
      -- function, parameters as the leading locals, implicit `return None`
      let (ls, nl) := allocParams params [] 0
      let st0 := { CSt.init fname with locals := ls, next_local := nl }
      let .cst st1 ← compileRun fuel (.cStmts body) st0
        | .error "internal: expected compiler state"
      let (i, st2) := add_const st1 (.cval .vnull)
      let st3 := emit (emit st2 (.LOAD_CONST i)) .RETURN
      pure (.ccode (.mk fname st3.instructions st3.consts st3.next_local
        params.length))

/-- `Compiler._compile_expr`. -/
def compileExpr (fuel : Nat) (e : Expr) (st : CSt) : Except String CSt :=
  (compileRun fuel (.cExpr e) st).bind COut.asSt

/-- The non-fused branch of `Assign` compilation. -/
def compileAssignGeneral (fuel : Nat) (target value : Expr) (st : CSt) :
    Except String CSt :=
  (compileRun fuel (.cAssignGen target value) st).bind COut.asSt

/-- Compile a list of expressions in order (call arguments). -/
def compileExprList (fuel : Nat) (es : List Expr) (st : CSt) :
    Except String CSt :=
  (compileRun fuel (.cExprs es) st).bind COut.asSt

/-- `Compiler._compile_stmt`. -/
def compileStmt (fuel : Nat) (s : Stmt) (st : CSt) : Except String CSt :=
  (compileRun fuel (.cStmt s) st).bind COut.asSt

/-- Compile a list of statements in order. -/
def compileStmtList (fuel : Nat) (ss : List Stmt) (st : CSt) :
    Except String CSt :=
  (compileRun fuel (.cStmts ss) st).bind COut.asSt

/-- `Compiler.compile_function`. -/
def compile_function (fuel : Nat) (fname : String) (params : List String)
    (body : List Stmt) : Except String Code :=
  (compileRun fuel (.cFn fname params body) (CSt.init fname)).bind COut.asCode

/-- `Compiler.compile_module`: compile the statements at module scope and
append the implicit `return None`. -/
def compile_module (fuel : Nat) (stmts : List Stmt) (name : String) :
    Except String Code := do
  let st0 := CSt.init name
  let st1 ← compileStmtList fuel stmts st0
  let (i, st2) := add_const st1 (.cval .vnull)
  let st3 := emit (emit st2 (.LOAD_CONST i)) .RETURN
  pure (.mk name st3.instructions st3.consts st3.next_local 0)

/-! ## Spec free-variable analysis (for comparison with the compiler)

The specification (section 4.4) describes a per-function free-variable
analysis deciding code- vs AST-backing.  No such analysis exists in
`compiler.py` (its `globals` set is created empty and never populated),
so the analysis is modelled here from the spec to state the comparison. -/

mutual

/-- Modelled from the spec: the *defined* names of a function body — the
`LetStmt` names introduced anywhere in it, recursing into nested blocks
but not into nested functions. -/
def specLetNamesStmt : Stmt → List String
  | .letStmt name _ _ _ => [name]
  | .blockStmt body => specLetNames body
  | .forStmt _ _ _ _ body => specLetNames body
  | .tryCatchStmt tb _ cb => specLetNames tb ++ specLetNames cb
  | _ => []

/-- Modelled from the spec: `specLetNamesStmt` over a list. -/
def specLetNames : List Stmt → List String
  | [] => []
  | s :: rest => specLetNamesStmt s ++ specLetNames rest

end

mutual

/-- Modelled from the spec: the *referenced* names — every `Variable`
name appearing anywhere, recursing into nested functions. -/
def specRefsExpr : Expr → List String
  | .lit _ => []
  | .evar n => [n]
  | .binary l _ r => specRefsExpr l ++ specRefsExpr r
  | .assign t v => specRefsExpr t ++ specRefsExpr v
  | .call c args => specRefsExpr c ++ specRefsExprList args
  | .funcExpr _ _ b => specRefsStmts b
termination_by e => sizeOf e

/-- Modelled from the spec: references of an expression list. -/
def specRefsExprList : List Expr → List String
  | [] => []
  | e :: rest => specRefsExpr e ++ specRefsExprList rest
termination_by es => sizeOf es

/-- Modelled from the spec: references of one statement. -/
def specRefsStmt : Stmt → List String
  | .exprStmt e => specRefsExpr e
  | .letStmt _ (some e) _ _ => specRefsExpr e
  | .letStmt _ none _ _ => []
  | .blockStmt body => specRefsStmts body
  | .forStmt _ s e (some st) body =>
    specRefsExpr s ++ specRefsExpr e ++ specRefsExpr st ++ specRefsStmts body
  | .forStmt _ s e none body =>
    specRefsExpr s ++ specRefsExpr e ++ specRefsStmts body
  | .functionStmt _ _ body => specRefsStmts body
  | .returnStmt (some e) => specRefsExpr e
  | .returnStmt none => []
  | .throwStmt v => specRefsExpr v
  | .tryCatchStmt tb _ cb => specRefsStmts tb ++ specRefsStmts cb
termination_by s => sizeOf s

/-- Modelled from the spec: references of a statement list. -/
def specRefsStmts : List Stmt → List String
  | [] => []
  | s :: rest => specRefsStmt s ++ specRefsStmts rest
termination_by ss => sizeOf ss

end

/-- Modelled from the spec: *referenced − defined − globals-at-compile-time*
for a function with the given parameters and body.  The compiler's
`globals` set is created empty and never populated, so the subtracted
globals set is empty. -/
def specFreeVars (params : List String) (body : List Stmt) : List String :=
  ((specRefsStmts body).filter
    (fun n => ¬ (params ++ specLetNames body).contains n)).dedup

/-! ## Runner (runner.py)

`run_file` / `main` are modelled over a `RunWorld` describing the outside
conditions and the outcomes of the stages whose execution is unbounded
(the VM run and the interpreter run); the compiler terminates, so the
model invokes the embedded `compile_module` itself, with the compiler
fuel carried in the world.  The first, uncached run of
a path is modelled (the compile cache is empty then).  The trace records
which engines were started and on which AST. -/

/-- An error escaping the front end (lexer, parser or type checker) —
uncaught inside `run_file`. -/
inductive FrontErr where
  | lexErr (m : String)
  | parseErr (m : String)
  | typeErr (m : String)

/-- The message of a front-end error. -/
def FrontErr.msg : FrontErr → String
  | .lexErr m => m
  | .parseErr m => m
  | .typeErr m => m

/-- Observable runner events. -/
inductive Ev where
  | compileAttempt (ast : List Stmt)
  | compileFallback (msg : String)
  | vmStarted
  | vmErrorReported (msg : String)
  | interpStarted (ast : List Stmt)

/-- A host exception escaping `run_file` into `main`. -/
inductive HostExn where
  | fileNotFound
  | otherExn (m : String)

/-- The outside conditions and stage outcomes of one `main` invocation. -/
structure RunWorld where
  hasArg : Bool
  suffixIsFn : Bool
  endsWithFn : Bool
  fileExists : Bool
  readOk : Bool
  front : Except FrontErr (List Stmt)
  vmOutcome : Except String Value
  interpOutcome : Except String Unit
  path : String
  cfuel : Nat

namespace Runner

/-- The interpreter-fallback tail of `run_file`: run the tree interpreter
on the AST; success is exit 0, any error (type, interpreter or other) is
exit 3. -/
def runInterp (w : RunWorld) (ast : List Stmt) (evs : List Ev) :
    Except HostExn (Int × List Ev) :=
  let evs' := evs ++ [Ev.interpStarted ast]
  match w.interpOutcome with
  | .ok _ => .ok (0, evs')
  | .error _ => .ok (3, evs')

/-- `runner.run_file`: extension gate (exit 1), read the source
(`FileNotFoundError` / read errors escape), lex + parse + type-check
(errors escape), try the compiler (a `CompileError` prints the fallback
message and leaves no code object), run the VM when there is a code
object (exit 0 on success; on error report and fall back), else or after
a VM error run the tree interpreter. -/
def run_file (w : RunWorld) : Except HostExn (Int × List Ev) :=
  if ¬ w.endsWithFn then .ok (1, [])
  else if ¬ w.fileExists then .error .fileNotFound
  else if ¬ w.readOk then .error (.otherExn "read failed")
  else
    match w.front with
    | .error e => .error (.otherExn e.msg)
    | .ok ast =>
      match compile_module w.cfuel ast w.path with
      | .ok _c =>
        let evs := [Ev.compileAttempt ast, Ev.vmStarted]
        match w.vmOutcome with
        | .ok _ => .ok (0, evs)
        | .error m => runInterp w ast (evs ++ [Ev.vmErrorReported m])
      | .error m =>
        runInterp w ast [Ev.compileAttempt ast, Ev.compileFallback m]

/-- `runner.main`: no argument is exit 1; a non-`.fn` suffix is exit 2;
`FileNotFoundError` is exit 2; any other escaping exception is exit 4. -/
def main (w : RunWorld) : Int :=
  if ¬ w.hasArg then 1
  else if ¬ w.suffixIsFn then 2
  else
    match run_file w with
    | .ok (c, _) => c
    | .error .fileNotFound => 2
    | .error (.otherExn _) => 4

end Runner

/-! ## Concrete programs, worlds and executable run helpers -/

/-- The shape of the repository test `test_try_catch_and_throw`: a value
thrown inside a `try` block whose `catch` binds it.  The parser produces
`TryCatchStmt`/`ThrowStmt` nodes for this syntax. -/
def tryCatchProgram : List Stmt :=
  [.tryCatchStmt [.throwStmt (.lit (.vstr "boom"))] "err"
     [.letStmt "msg" (some (.evar "err")) false true]]

/-- A function statement whose body references `n`, a name that is
neither a parameter nor declared in the body: by the spec analysis it has
the free variable `n`. -/
def bumpStmt : Stmt := .functionStmt "bump" [] [.returnStmt (some (.evar "n"))]

/-- Whether compiling the module emits a `MAKE_FUNCTION("CODE", ...)`. -/
def emitsCodeBackedFn (stmts : List Stmt) : Bool :=
  match compile_module 100 stmts "<module>" with
  | .ok c => c.instructions.any (fun i =>
      match i with
      | .MAKE_FUNCTION_CODE _ _ _ _ => true
      | _ => false)
  | .error _ => false

/-- A world whose module contains a `throw`, which the compiler rejects
(`Unhandled statement type`). -/
def C3CompileErrWorld : RunWorld :=
  { hasArg := true, suffixIsFn := true, endsWithFn := true,
    fileExists := true, readOk := true,
    front := .ok [.throwStmt (.lit (.vstr "x"))],
    vmOutcome := .ok .vnull, interpOutcome := .error "Runtime error: x",
    path := "t.fn", cfuel := 100 }

/-- A world whose module compiles but whose VM run fails. -/
def C3VMErrWorld : RunWorld :=
  { hasArg := true, suffixIsFn := true, endsWithFn := true,
    fileExists := true, readOk := true, front := .ok [],
    vmOutcome := .error "Stack underflow", interpOutcome := .ok (),
    path := "t.fn", cfuel := 100 }

/-- A run in which the module compiles, the VM fails at runtime, and the
interpreter fallback also raises a runtime error. -/
def C5RuntimeErrWorld : RunWorld :=
  { hasArg := true, suffixIsFn := true, endsWithFn := true,
    fileExists := true, readOk := true, front := .ok [],
    vmOutcome := .error "VM runtime error",
    interpOutcome := .error "Runtime error: boom", path := "demo.fn",
    cfuel := 100 }

/-- The exit codes the runner actually produces. -/
def exitCodeMap (w : RunWorld) : Int :=
  if ¬ w.hasArg then 1
  else if ¬ w.suffixIsFn then 2
  else if ¬ w.endsWithFn then 1
  else if ¬ w.fileExists then 2
  else if ¬ w.readOk then 4
  else
    match w.front with
    | .error _ => 4
    | .ok ast =>
      match compile_module w.cfuel ast w.path with
      | .ok _ =>
        match w.vmOutcome with
        | .ok _ => 0
        | .error _ =>
          match w.interpOutcome with
          | .ok _ => 0
          | .error _ => 3
      | .error _ =>
        match w.interpOutcome with
        | .ok _ => 0
        | .error _ => 3

/-- The fresh machine state `VM.run_code` starts from in the theorems
below: empty globals (builtins are irrelevant to the embedded programs)
and a fallback interpreter whose heap holds only its globals frame. -/
def vmSt0 : VM.VMSt := ⟨[], [newFrame none false]⟩

/-- Compile a module and run it on a fresh VM, returning the result
value. -/
def vmRunModule (cfuel vfuel : Nat) (stmts : List Stmt) :
    Except String Value :=
  match compile_module cfuel stmts "<module>" with
  | .error m => .error m
  | .ok c =>
    match VM.run_code vfuel c vmSt0 with
    | .ok (v, _) => .ok v
    | .error m => .error m

/-- Compile a module, run it on a fresh VM, and look up a global. -/
def vmRunModuleGlobal (cfuel vfuel : Nat) (stmts : List Stmt)
    (name : String) : Except String (Option Value) :=
  match compile_module cfuel stmts "<module>" with
  | .error m => .error m
  | .ok c =>
    match VM.run_code vfuel c vmSt0 with
    | .ok (_, st) => .ok (alookup st.globals name)
    | .error m => .error m

/-- Run the tree interpreter on a module and look up a name in its
globals frame. -/
def interpGlobalAfter (fuel : Nat) (stmts : List Stmt) (name : String) :
    Except String (Option Value) :=
  match Interpreter.interpret fuel stmts with
  | (.ok _, h) => .ok (envGet h (h.length + 1) 0 name)
  | (.error m, _) => .error m

/-- `var x := (a && b);` at module scope, with constant operands. -/
def andProg (a b : Value) : List Stmt :=
  [.letStmt "x" (some (.binary (.lit a) "&&" (.lit b))) false true]

/-- `var x := (a || b);` at module scope, with constant operands. -/
def orProg (a b : Value) : List Stmt :=
  [.letStmt "x" (some (.binary (.lit a) "||" (.lit b))) false true]

/-- `for var i := 0 to 1 step 0 {}` — a zero-step loop. -/
def step0Prog : List Stmt :=
  [.forStmt "i" (.lit (.vint 0)) (.lit (.vint 1)) (some (.lit (.vint 0))) []]

/-- `var s := 0; for var i := 0 to 3 { s = s + i; }` — sums `0+1+2+3`,
observing that the `to` bound is inclusive. -/
def inclProg : List Stmt :=
  [.letStmt "s" (some (.lit (.vint 0))) false true,
   .forStmt "i" (.lit (.vint 0)) (.lit (.vint 3)) none
     [.exprStmt (.assign (.evar "s") (.binary (.evar "s") "+" (.evar "i")))]]

/-- `var s := 0; for var i := 3 to 1 step -1 { s = s + i; }` — sums
`3+2+1` downwards, observing the reversed comparison. -/
def negStepProg : List Stmt :=
  [.letStmt "s" (some (.lit (.vint 0))) false true,
   .forStmt "i" (.lit (.vint 3)) (.lit (.vint 1)) (some (.lit (.vint (-1))))
     [.exprStmt (.assign (.evar "s") (.binary (.evar "s") "+" (.evar "i")))]]

/-- `function f(a) { return a; } f();` — a call with a missing argument
on the tree-interpreter path. -/
def missingArgInterpProg : List Stmt :=
  [.functionStmt "f" ["a"] [.returnStmt (some (.evar "a"))],
   .exprStmt (.call (.evar "f") [])]

/-- `function f(a, b) { return a; } var x := f(1, 2, 3);` — extra
arguments on the VM path. -/
def extraArgsVMProg : List Stmt :=
  [.functionStmt "f" ["a", "b"] [.returnStmt (some (.evar "a"))],
   .letStmt "x" (some (.call (.evar "f")
     [.lit (.vint 1), .lit (.vint 2), .lit (.vint 3)])) false true]

/-- `function f(a, b) { return b; } var y := f(7);` — a missing argument
on the VM path. -/
def missingArgVMProg : List Stmt :=
  [.functionStmt "f" ["a", "b"] [.returnStmt (some (.evar "b"))],
   .letStmt "y" (some (.call (.evar "f") [.lit (.vint 7)])) false true]

/-- The code `compile_module` produces for `andProg a b` (the
`JUMP_IF_FALSE` is patched to the join point `3`). -/
def andCode (a b : Value) : Code :=
  .mk "<module>" [.LOAD_CONST 0, .JUMP_IF_FALSE 3, .LOAD_CONST 1,
    .STORE_GLOBAL "x", .LOAD_CONST 2, .RETURN]
    [.cval a, .cval b, .cval .vnull] 0 0

/-- The code `compile_module` produces for `orProg a b` — note the
`JUMP_IF_FALSE` placeholder `-1` that is never patched. -/
def orCode (a b : Value) : Code :=
  .mk "<module>" [.LOAD_CONST 0, .JUMP_IF_FALSE (-1), .LOAD_CONST 1,
    .STORE_GLOBAL "x", .LOAD_CONST 2, .RETURN]
    [.cval a, .cval b, .cval .vnull] 0 0

/-! ## Helper lemmas -/

/-- Length of the padded locals vector. -/
lemma extendLocals_length (locals : List Value) (idx : Nat) :
    (VM.extendLocals locals idx).length = max locals.length (idx + 1) := by
  unfold VM.extendLocals
  split <;> simp <;> omega

/-- Entries below the original length survive padding. -/
lemma extendLocals_getElem? (locals : List Value) (idx j : Nat)
    (hj : j < locals.length) :
    (VM.extendLocals locals idx)[j]? = locals[j]? := by
  unfold VM.extendLocals
  split
  · rw [List.getElem?_append_left hj]
  · rfl

/-- Padded entries are nulls. -/
lemma extendLocals_getElem?_pad (locals : List Value) (idx j : Nat)
    (h1 : locals.length ≤ j) (h2 : j ≤ idx) :
    (VM.extendLocals locals idx)[j]? = some .vnull := by
  unfold VM.extendLocals
  split
  · rw [List.getElem?_append_right h1, List.getElem?_replicate]
    rw [if_pos (by omega)]
  · omega

/-- The guarded-set fold of `vmCallLocals`, characterized entrywise: the
fold writes `ys[j - k]?` at positions `k ≤ j < k + ys.length` that are
inside the base vector, and leaves the rest of the base alone. -/
lemma foldl_enumFrom_set_getElem? (ys : List Value) :
    ∀ (k : Nat) (base : List Value) (j : Nat),
    ((List.enumFrom k ys).foldl
        (fun ls ia => if ia.1 < ls.length then ls.set ia.1 ia.2 else ls)
        base)[j]?
      = if k ≤ j ∧ j < k + ys.length ∧ j < base.length then ys[j - k]?
        else base[j]? := by
  induction ys with
  | nil =>
    intro k base j
    simp only [List.enumFrom, List.foldl_nil, List.length_nil]
    rw [if_neg (by rintro ⟨h1, h2, h3⟩; omega)]
  | cons y ys ih =>
    intro k base j
    have hlen : (if k < base.length then base.set k y else base).length
        = base.length := by split <;> simp
    simp only [List.enumFrom, List.foldl_cons]
    rw [ih (k + 1) _ j, hlen]
    by_cases hj1 : k + 1 ≤ j ∧ j < k + 1 + ys.length ∧ j < base.length
    · rw [if_pos hj1,
        if_pos (show k ≤ j ∧ j < k + (y :: ys).length ∧ j < base.length by
          exact ⟨by omega, by simp only [List.length_cons]; omega, hj1.2.2⟩)]
      have hjk : j - k = (j - (k + 1)) + 1 := by omega
      rw [hjk]
      simp
    · rw [if_neg hj1]
      by_cases hj2 : k ≤ j ∧ j < k + (y :: ys).length ∧ j < base.length
      · -- only position j = k is newly written
        have hjk : j = k := by
          simp only [List.length_cons] at hj2
          omega
        subst hjk
        rw [if_pos hj2, if_pos hj2.2.2]
        simp only [Nat.sub_self]
        rw [List.getElem?_set_eq hj2.2.2]
        simp
      · rw [if_neg hj2]
        split
        · next hk =>
          refine List.getElem?_set_ne ?_
          intro hjk
          exact hj2 ⟨le_of_eq hjk,
            by simp only [List.length_cons]; omega, hjk ▸ hk⟩
        · rfl

/-- `vmCallLocals` keeps length `nlocals`. -/
lemma vmCallLocals_length (n a : Nat) (args : List Value) :
    (VM.vmCallLocals n a args).length = n := by
  unfold VM.vmCallLocals
  have hfold : ∀ (ps : List (Nat × Value)) (base : List Value),
      (ps.foldl (fun ls ia => if ia.1 < ls.length then ls.set ia.1 ia.2 else ls)
        base).length = base.length := by
    intro ps
    induction ps with
    | nil => intro base; rfl
    | cons p ps ih =>
      intro base
      simp only [List.foldl_cons]
      rw [ih]
      split <;> simp
  rw [hfold]
  simp

/-- Entrywise contents of the locals vector built for a code-backed call:
the first `min argcount (# args)` slots take the arguments, everything
else is null. -/
lemma vmCallLocals_getElem? (n a : Nat) (args : List Value) (j : Nat) :
    (VM.vmCallLocals n a args)[j]? =
      if j < n then
        (if j < min a args.length then args[j]? else some .vnull)
      else none := by
  unfold VM.vmCallLocals
  have henum : (args.take a).enum = List.enumFrom 0 (args.take a) := rfl
  rw [henum, foldl_enumFrom_set_getElem?]
  simp only [Nat.zero_le, true_and, Nat.zero_add, Nat.sub_zero,
    List.length_replicate, List.length_take]
  by_cases hn : j < n
  · by_cases hja : j < min a args.length
    · rw [if_pos ⟨hja, hn⟩, if_pos hn, if_pos hja, List.getElem?_take,
        if_pos (by omega)]
    · rw [if_neg (by omega), if_pos hn, if_neg hja, List.getElem?_replicate,
        if_pos hn]
  · rw [if_neg (by omega), if_neg hn, List.getElem?_replicate, if_neg hn]

/-- `zip` truncates to the shorter list, so pre-truncating the arguments
to the parameter count changes nothing. -/
lemma zip_take_length (ps : List String) (args : List Value) :
    ps.zip (args.take ps.length) = ps.zip args := by
  induction ps generalizing args with
  | nil => simp
  | cons p ps ih =>
    cases args with
    | nil => simp
    | cons a args => simp [ih]

/-- One dispatch step on a conditional jump whose condition is truthy:
the condition is consumed and control continues at the next
instruction. -/
lemma runFrame_jif_false (fuel : Nat) (code : Code) (ip t : Int)
    (cond : Value) (rest locals : List Value) (st : VM.VMSt)
    (hip : ip < (code.instructions.length : Int))
    (hfetch : VM.fetchInstr code.instructions ip = .ok (.JUMP_IF_FALSE t))
    (hcond : VM.h_jump_if_false cond = false) :
    VM.runFrame (fuel + 1) code ip (cond :: rest) locals st =
      VM.runFrame fuel code (ip + 1) rest locals st := by
  simp only [VM.runFrame, if_pos hip, hfetch, hcond]
  simp

/-- One dispatch step on a conditional jump whose condition is falsy:
the condition is consumed and control moves to the jump target. -/
lemma runFrame_jif_true (fuel : Nat) (code : Code) (ip t : Int)
    (cond : Value) (rest locals : List Value) (st : VM.VMSt)
    (hip : ip < (code.instructions.length : Int))
    (hfetch : VM.fetchInstr code.instructions ip = .ok (.JUMP_IF_FALSE t))
    (hcond : VM.h_jump_if_false cond = true) :
    VM.runFrame (fuel + 1) code ip (cond :: rest) locals st =
      VM.runFrame fuel code t rest locals st := by
  simp only [VM.runFrame, if_pos hip, hfetch, hcond]
  simp

/-- A string has length zero exactly when it is empty. -/
lemma string_length_eq_zero (s : String) : s.length = 0 ↔ s = "" := by
  constructor
  · intro h
    cases s with
    | mk data =>
      cases data with
      | nil => rfl
      | cons c cs => simp [String.length] at h
  · intro h; subst h; rfl

/-! ## Claim C8 -/

/-- C8: the VM truthiness predicate and the interpreter truthiness
predicate agree on every value, and both classify a value as falsy
exactly when it is `null`, `false`, `0`, `0.0`, the empty string, the
empty list, the empty tuple, the empty dict, or the empty set. -/
theorem C8_truthiness (v : Value) :
    VM.is_truthy v = Interpreter.is_truthy v ∧
    (VM.is_truthy v = false ↔
      (v = .vnull ∨ v = .vbool false ∨ v = .vint 0 ∨ v = .vfloat 0 ∨
       v = .vstr "" ∨ v = .vlist [] ∨ v = .vtuple [] ∨ v = .vdict [] ∨
       v = .vset [])) := by
  cases v <;>
    simp [VM.is_truthy, Interpreter.is_truthy, List.length_eq_zero,
      string_length_eq_zero]

/-! ## Claim C10 -/

/-- C10: VM local-slot access is total.  `STORE_LOCAL` pads with nulls up
to the index and writes; `LOAD_LOCAL` out of range pushes null, in range
pushes the slot; `INC_LOCAL` pads, treats a null (or padded) slot as `0`
and stores `1`, and on an integer slot stores the successor; the fused
`JUMP_IF_GE_LOCAL_IMM` reads an out-of-range or null slot as `0`;
`FAST_COUNT` pads and writes the limit.  None of these raises an
out-of-bounds error. -/
theorem C10_local_slots :
    (∀ (locals : List Value) (idx : Nat) (v : Value) (j : Nat),
      (VM.h_store_local locals idx v)[j]? =
        if j = idx then some v
        else if j < locals.length then locals[j]?
        else if j < max locals.length (idx + 1) then some .vnull
        else none) ∧
    (∀ (locals : List Value) (idx : Nat) (stack : List Value),
      locals.length ≤ idx →
      VM.h_load_local locals idx stack = Value.vnull :: stack) ∧
    (∀ (locals : List Value) (idx : Nat) (stack : List Value) (v : Value),
      locals[idx]? = some v →
      VM.h_load_local locals idx stack = v :: stack) ∧
    (∀ (locals : List Value) (idx : Nat),
      locals[idx]? = some Value.vnull ∨ locals.length ≤ idx →
      VM.h_inc_local locals idx =
        .ok ((VM.extendLocals locals idx).set idx (.vint 1))) ∧
    (∀ (locals : List Value) (idx : Nat) (m : Int),
      locals[idx]? = some (Value.vint m) →
      VM.h_inc_local locals idx = .ok (locals.set idx (.vint (m + 1)))) ∧
    (∀ (locals : List Value) (idx : Nat) (imm : Value),
      locals.length ≤ idx ∨ locals[idx]? = some Value.vnull →
      VM.h_jump_if_ge_local_imm locals idx imm = pyGe (.vint 0) imm) ∧
    (∀ (locals : List Value) (idx : Nat) (limit : Value),
      (VM.h_fast_count locals idx limit)[idx]? = some limit) := by
  refine ⟨?_, ?_, ?_, ?_, ?_, ?_, ?_⟩
  · intro locals idx v j
    unfold VM.h_store_local
    by_cases hji : j = idx
    · subst hji
      rw [if_pos rfl]
      exact List.getElem?_set_eq (by rw [extendLocals_length]; omega)
    · rw [List.getElem?_set_ne (Ne.symm hji), if_neg hji]
      by_cases hjl : j < locals.length
      · rw [extendLocals_getElem? _ _ _ hjl, if_pos hjl]
      · by_cases hjm : j < max locals.length (idx + 1)
        · rw [extendLocals_getElem?_pad _ _ _ (by omega) (by omega),
            if_neg hjl, if_pos hjm]
        · rw [if_neg hjl, if_neg hjm]
          exact List.getElem?_eq_none (by rw [extendLocals_length]; omega)
  · intro locals idx stack hlen
    unfold VM.h_load_local
    rw [List.get?_eq_getElem?, List.getElem?_eq_none hlen]
  · intro locals idx stack v hv
    unfold VM.h_load_local
    rw [List.get?_eq_getElem?, hv]
  · intro locals idx h
    unfold VM.h_inc_local
    have hnull : (VM.extendLocals locals idx)[idx]? = some Value.vnull := by
      rcases h with h | h
      · have hlt : idx < locals.length := (List.getElem?_eq_some.1 h).1
        rw [extendLocals_getElem? _ _ _ hlt, h]
      · exact extendLocals_getElem?_pad _ _ _ h (le_refl _)
    simp only [List.get?_eq_getElem?, hnull]
    simp [pyAdd, intVal]
  · intro locals idx m h
    unfold VM.h_inc_local
    have hlt : idx < locals.length := (List.getElem?_eq_some.1 h).1
    have hext : VM.extendLocals locals idx = locals := by
      unfold VM.extendLocals
      rw [if_neg (by omega)]
    simp only [hext, List.get?_eq_getElem?, h]
    simp [pyAdd, intVal]
  · intro locals idx imm h
    unfold VM.h_jump_if_ge_local_imm
    rcases h with h | h
    · simp only [List.get?_eq_getElem?, List.getElem?_eq_none h]
    · simp only [List.get?_eq_getElem?, h]
  · intro locals idx limit
    unfold VM.h_fast_count
    exact List.getElem?_set_eq (by rw [extendLocals_length]; omega)

/-- C10 witness: the hypothesis-bearing conjuncts evaluated at concrete
inputs. -/
theorem C10_local_slots_witness :
    VM.h_load_local [Value.vint 7] 3 [] = [Value.vnull] ∧
    VM.h_inc_local [Value.vnull] 0 = .ok [Value.vint 1] ∧
    VM.h_inc_local [Value.vint 4] 0 = .ok [Value.vint 5] ∧
    VM.h_jump_if_ge_local_imm [] 2 (Value.vint 0) = pyGe (.vint 0) (.vint 0) := by
  refine ⟨C10_local_slots.2.1 [Value.vint 7] 3 [] (by simp),
          ?_, ?_,
          C10_local_slots.2.2.2.2.2.1 [] 2 (Value.vint 0) (Or.inl (by simp))⟩
  · have h := C10_local_slots.2.2.2.1 [Value.vnull] 0 (Or.inl rfl)
    simpa [VM.extendLocals] using h
  · have h := C10_local_slots.2.2.2.2.1 [Value.vint 4] 0 4 rfl
    simpa using h

/-! ## Claim C9 -/

/-- C9: reading an unbound name yields `null` on the VM path (the
`LOAD_GLOBAL` handler pushes `None` and the dispatch loop continues) but
an undefined-variable error on the tree-interpreter path. -/
theorem C9_unbound_name :
    (∀ (g : List (String × Value)) (name : String) (stack : List Value),
      alookup g name = none →
      VM.h_load_global g name stack = Value.vnull :: stack) ∧
    (∀ (fuel : Nat) (code : Code) (ip : Int) (stack locals : List Value)
       (st : VM.VMSt) (name : String),
      ip < (code.instructions.length : Int) →
      VM.fetchInstr code.instructions ip = .ok (.LOAD_GLOBAL name) →
      alookup st.globals name = none →
      VM.runFrame (fuel + 1) code ip stack locals st =
        VM.runFrame fuel code (ip + 1) (Value.vnull :: stack) locals st) ∧
    (∀ (fuel : Nat) (env : Nat) (h : Heap) (name : String),
      name ≠ "break" →
      envGet h (h.length + 1) env name = none →
      evalExpr (fuel + 1) (.evar name) env h =
        (.error (.err s!"Undefined variable '{name}'"), h)) := by
  refine ⟨?_, ?_, ?_⟩
  · intro g name stack hn
    unfold VM.h_load_global
    rw [hn]
    rfl
  · intro fuel code ip stack locals st name hip hfetch hn
    simp only [VM.runFrame, if_pos hip, hfetch]
    unfold VM.h_load_global
    rw [hn]
    rfl
  · intro fuel env h name hb hn
    simp only [evalExpr, interpRun]
    rw [if_neg hb, hn]

/-- C9 witness: a concrete unbound name on both paths. -/
theorem C9_unbound_name_witness :
    VM.h_load_global [("x", Value.vint 1)] "q" [] = [Value.vnull] ∧
    evalExpr 5 (.evar "q") 0 [newFrame none false] =
      (.error (.err "Undefined variable 'q'"), [newFrame none false]) := by
  refine ⟨C9_unbound_name.1 [("x", Value.vint 1)] "q" [] (by simp [alookup]),
          ?_⟩
  have h := C9_unbound_name.2.2 4 0 [newFrame none false] "q"
    (by decide) (by rfl)
  simpa using h

/-! ## Claim C4 -/


/-- C4 (code bug): `Interpreter._execute` has no case for `TryCatchStmt`
or `ThrowStmt`, so executing a try/catch (or a bare throw) falls through
to the `Unknown statement type` InterpreterError instead of running the
catch block with the thrown value bound — contradicting the repository's
own test `test_try_catch_and_throw`. -/
theorem C4_throw_catch_unhandled :
    (Interpreter.interpret 100 tryCatchProgram).1 =
      .error "Unknown statement type: TryCatchStmt" ∧
    (Interpreter.interpret 100 [.throwStmt (.lit (.vstr "boom"))]).1 =
      .error "Unknown statement type: ThrowStmt" :=
  ⟨rfl, rfl⟩

/-! ## Claim C1 -/



/-- C1 counterexample: `bump` has the free variable `n` under the spec's
analysis (*referenced − defined − globals* = `{n}` ≠ ∅), yet the compiler
emits `MAKE_FUNCTION("CODE", ...)` for it — a function that captures an
outer binding **is** code-backed, refuting the claimed equivalence. -/
theorem C1_counterexample :
    specFreeVars [] [Stmt.returnStmt (some (.evar "n"))] = ["n"] ∧
    emitsCodeBackedFn [bumpStmt] = true := by
  constructor
  · simp [specFreeVars, specRefsStmts, specRefsStmt, specRefsExpr,
      specLetNames, specLetNamesStmt]
  · rfl

/-- C1 amended: the compiler decides backing by syntactic kind alone — no
free-variable analysis exists.  Every `FunctionStmt` whose body compiles
is lowered code-backed (`MAKE_FUNCTION("CODE", const_idx, name, argcount,
nlocals)` then `STORE_GLOBAL`), and every `FunctionExpr` is lowered
AST-backed (`MAKE_FUNCTION("AST", const_idx)`), regardless of free
variables. -/
theorem C1_amended :
    (∀ (fuel : Nat) (name : String) (params : List String)
       (body : List Stmt) (st : CSt) (c : Code),
      compile_function fuel name params body = .ok c →
      compileStmt (fuel + 1) (.functionStmt name params body) st =
        .ok { st with
          consts := st.consts ++ [Const.ccode c],
          instructions := st.instructions ++
            [.MAKE_FUNCTION_CODE st.consts.length name c.argcount c.nlocals,
             .STORE_GLOBAL name] }) ∧
    (∀ (fuel : Nat) (n : Option String) (params : List String)
       (body : List Stmt) (st : CSt),
      compileExpr (fuel + 1) (.funcExpr n params body) st =
        .ok { st with
          consts := st.consts ++ [Const.castFn n params body],
          instructions := st.instructions ++
            [.MAKE_FUNCTION_AST st.consts.length] }) := by
  constructor
  · intro fuel name params body st c hc
    have hc' : compileRun fuel (.cFn name params body) (CSt.init name)
        = .ok (.ccode c) := by
      unfold compile_function at hc
      cases hr : compileRun fuel (.cFn name params body) (CSt.init name) with
      | error m => rw [hr] at hc; simp [Except.bind] at hc
      | ok o =>
        cases o with
        | cst st' => rw [hr] at hc; simp [Except.bind, COut.asCode] at hc
        | ccode c' =>
          rw [hr] at hc
          simp only [Except.bind, COut.asCode, Except.ok.injEq] at hc
          rw [hc]
    -- the `cFn` branch ignores the incoming state
    have hst : compileRun fuel (.cFn name params body) st
        = compileRun fuel (.cFn name params body) (CSt.init name) := by
      cases fuel <;> rfl
    unfold compileStmt
    simp only [compileRun, hst, hc', add_const, emit]
    simp [Bind.bind, Except.bind, Pure.pure, Except.pure, COut.asSt,
      List.append_assoc]
  · intro fuel n params body st
    simp [compileExpr, compileRun, add_const, emit, Bind.bind, Except.bind,
      Pure.pure, Except.pure, COut.asSt, List.append_assoc]

/-- C1 witness: the amended theorem at a concrete function statement. -/
theorem C1_amended_witness :
    compileStmt 3 (.functionStmt "f" [] []) (CSt.init "<module>") =
      .ok { CSt.init "<module>" with
        consts := [Const.ccode (Code.mk "f" [.LOAD_CONST 0, .RETURN]
          [Const.cval .vnull] 0 0)],
        instructions := [.MAKE_FUNCTION_CODE 0 "f" 0 0, .STORE_GLOBAL "f"] } :=
  C1_amended.1 2 "f" [] [] (CSt.init "<module>")
    (Code.mk "f" [.LOAD_CONST 0, .RETURN] [Const.cval .vnull] 0 0) rfl

/-! ## Claim C3 -/

/-- C3: (a) a compile error makes the runner fall back to the tree
interpreter on the same AST without starting the VM; (b) a VM runtime
error is reported and the tree interpreter is attempted on the same
AST. -/
theorem C3_runner_fallback :
    (∀ (w : RunWorld) (ast : List Stmt) (m : String),
      w.endsWithFn = true → w.fileExists = true → w.readOk = true →
      w.front = .ok ast → compile_module w.cfuel ast w.path = .error m →
      ∃ k evs, Runner.run_file w = .ok (k, evs) ∧
        Ev.interpStarted ast ∈ evs ∧ Ev.vmStarted ∉ evs) ∧
    (∀ (w : RunWorld) (ast : List Stmt) (c : Code) (m : String),
      w.endsWithFn = true → w.fileExists = true → w.readOk = true →
      w.front = .ok ast → compile_module w.cfuel ast w.path = .ok c →
      w.vmOutcome = .error m →
      ∃ k evs, Runner.run_file w = .ok (k, evs) ∧
        Ev.vmErrorReported m ∈ evs ∧ Ev.interpStarted ast ∈ evs) := by
  constructor
  · intro w ast m h1 h2 h3 h4 h5
    have hrf : Runner.run_file w =
        Runner.runInterp w ast [Ev.compileAttempt ast, Ev.compileFallback m] := by
      simp [Runner.run_file, h1, h2, h3, h4, h5]
    cases hio : w.interpOutcome with
    | ok u =>
      refine ⟨0, [Ev.compileAttempt ast, Ev.compileFallback m,
        Ev.interpStarted ast], ?_, ?_, ?_⟩
      · rw [hrf]; simp [Runner.runInterp, hio]
      · simp
      · simp
    | error e =>
      refine ⟨3, [Ev.compileAttempt ast, Ev.compileFallback m,
        Ev.interpStarted ast], ?_, ?_, ?_⟩
      · rw [hrf]; simp [Runner.runInterp, hio]
      · simp
      · simp
  · intro w ast c m h1 h2 h3 h4 h5 h6
    have hrf : Runner.run_file w =
        Runner.runInterp w ast
          [Ev.compileAttempt ast, Ev.vmStarted, Ev.vmErrorReported m] := by
      simp [Runner.run_file, h1, h2, h3, h4, h5, h6]
    cases hio : w.interpOutcome with
    | ok u =>
      refine ⟨0, [Ev.compileAttempt ast, Ev.vmStarted, Ev.vmErrorReported m,
        Ev.interpStarted ast], ?_, ?_, ?_⟩
      · rw [hrf]; simp [Runner.runInterp, hio]
      · simp
      · simp
    | error e =>
      refine ⟨3, [Ev.compileAttempt ast, Ev.vmStarted, Ev.vmErrorReported m,
        Ev.interpStarted ast], ?_, ?_, ?_⟩
      · rw [hrf]; simp [Runner.runInterp, hio]
      · simp
      · simp



/-- C3 witness: the fallback theorem at the two concrete worlds. -/
theorem C3_runner_fallback_witness :
    (∃ k evs, Runner.run_file C3CompileErrWorld = .ok (k, evs) ∧
      Ev.interpStarted [.throwStmt (.lit (.vstr "x"))] ∈ evs ∧
      Ev.vmStarted ∉ evs) ∧
    (∃ k evs, Runner.run_file C3VMErrWorld = .ok (k, evs) ∧
      Ev.vmErrorReported "Stack underflow" ∈ evs ∧
      Ev.interpStarted [] ∈ evs) :=
  ⟨C3_runner_fallback.1 C3CompileErrWorld [.throwStmt (.lit (.vstr "x"))]
      "Unhandled statement type in compiler: ThrowStmt" rfl rfl rfl rfl rfl,
   C3_runner_fallback.2 C3VMErrWorld []
      (Code.mk "t.fn" [.LOAD_CONST 0, .RETURN] [Const.cval .vnull] 0 0)
      "Stack underflow" rfl rfl rfl rfl rfl rfl⟩

/-! ## Claim C5 -/


/-- C5 counterexample: on a runtime error the entrypoint exits with `3`,
not `1` as the claim states (and a parse error exits with `4`, not
`1`). -/
theorem C5_counterexample :
    Runner.main C5RuntimeErrWorld = 3 ∧ Runner.main C5RuntimeErrWorld ≠ 1 := by
  exact ⟨rfl, by decide⟩


/-- C5 amended: the entrypoint exits `0` on success of either engine;
`1` when no argument is given; `2` for a non-`.fn` suffix or a missing
file; `3` for a type or runtime error in the interpreter fallback; and
`4` for lexer/parser/type-checker errors, read errors other than
file-not-found, and any other unhandled exception. -/
theorem C5_amended (w : RunWorld) : Runner.main w = exitCodeMap w := by
  unfold Runner.main exitCodeMap Runner.run_file Runner.runInterp
  split_ifs <;> try rfl
  all_goals (repeat' split) <;> try rfl
  all_goals simp_all

/-! ## Claim C2 -/

/-- C2 counterexample: for `var x := (true || false)` the left operand is
truthy and by the claim should be the expression value left on the stack,
with the right operand unevaluated; the VM instead stores the **right**
operand `false` into `x` (the `||` lowering's `JUMP_IF_FALSE` placeholder
never skips the rhs). -/
theorem C2_counterexample :
    vmRunModuleGlobal 10 20 (orProg (.vbool true) (.vbool false)) "x" =
      .ok (some (.vbool false)) ∧
    (some (Value.vbool false) : Option Value) ≠ some (Value.vbool true) := by
  exact ⟨rfl, by simp⟩

/-- C2 amended: `&&` with a truthy left operand evaluates the right
operand, whose value is the result; with a falsy left operand the right
operand is skipped but the left value is consumed by `JUMP_IF_FALSE` and
nothing is left on the stack (the next stack use underflows).  `||` does
not short-circuit: a truthy left operand still evaluates the right
operand, whose value is the result; a falsy left operand jumps to the
unpatched target `-1`, which by Python negative indexing executes the
object's final `RETURN`, ending the module early with `x` unassigned. -/
theorem C2_short_circuit_amended (a b : Value) :
    (VM.is_truthy a = true →
      vmRunModuleGlobal 10 20 (andProg a b) "x" = .ok (some b)) ∧
    (VM.is_truthy a = false →
      vmRunModule 10 20 (andProg a b) = .error "Stack underflow") ∧
    (VM.is_truthy a = true →
      vmRunModuleGlobal 10 20 (orProg a b) "x" = .ok (some b)) ∧
    (VM.is_truthy a = false →
      vmRunModule 10 20 (orProg a b) = .ok .vnull ∧
      vmRunModuleGlobal 10 20 (orProg a b) "x" = .ok none) := by
  refine ⟨?_, ?_, ?_, ?_⟩
  · intro ha
    have h1 : vmRunModuleGlobal 10 20 (andProg a b) "x"
        = (match VM.runFrame (18 + 1) (andCode a b) 1 [a] [] vmSt0 with
           | .ok (_, st) => .ok (alookup st.globals "x")
           | .error m => .error m) := rfl
    rw [h1, runFrame_jif_false 18 (andCode a b) 1 3 a [] [] vmSt0
      (by norm_num [andCode, Code.instructions]) rfl
      (by simp [VM.h_jump_if_false, ha])]
    rfl
  · intro ha
    have h1 : vmRunModule 10 20 (andProg a b)
        = (match VM.runFrame (18 + 1) (andCode a b) 1 [a] [] vmSt0 with
           | .ok (v, _) => .ok v
           | .error m => .error m) := rfl
    rw [h1, runFrame_jif_true 18 (andCode a b) 1 3 a [] [] vmSt0
      (by norm_num [andCode, Code.instructions]) rfl
      (by simp [VM.h_jump_if_false, ha])]
    rfl
  · intro ha
    have h1 : vmRunModuleGlobal 10 20 (orProg a b) "x"
        = (match VM.runFrame (18 + 1) (orCode a b) 1 [a] [] vmSt0 with
           | .ok (_, st) => .ok (alookup st.globals "x")
           | .error m => .error m) := rfl
    rw [h1, runFrame_jif_false 18 (orCode a b) 1 (-1) a [] [] vmSt0
      (by norm_num [orCode, Code.instructions]) rfl
      (by simp [VM.h_jump_if_false, ha])]
    rfl
  · intro ha
    constructor
    · have h1 : vmRunModule 10 20 (orProg a b)
          = (match VM.runFrame (18 + 1) (orCode a b) 1 [a] [] vmSt0 with
             | .ok (v, _) => .ok v
             | .error m => .error m) := rfl
      rw [h1, runFrame_jif_true 18 (orCode a b) 1 (-1) a [] [] vmSt0
        (by norm_num [orCode, Code.instructions]) rfl
        (by simp [VM.h_jump_if_false, ha])]
      rfl
    · have h1 : vmRunModuleGlobal 10 20 (orProg a b) "x"
          = (match VM.runFrame (18 + 1) (orCode a b) 1 [a] [] vmSt0 with
             | .ok (_, st) => .ok (alookup st.globals "x")
             | .error m => .error m) := rfl
      rw [h1, runFrame_jif_true 18 (orCode a b) 1 (-1) a [] [] vmSt0
        (by norm_num [orCode, Code.instructions]) rfl
        (by simp [VM.h_jump_if_false, ha])]
      rfl

/-- C2 witness: each case of the amended theorem evaluated at boolean
left operands. -/
theorem C2_short_circuit_witness :
    vmRunModuleGlobal 10 20 (andProg (.vbool true) (.vint 5)) "x" =
      .ok (some (.vint 5)) ∧
    vmRunModule 10 20 (andProg (.vbool false) (.vint 5)) =
      .error "Stack underflow" ∧
    vmRunModuleGlobal 10 20 (orProg (.vbool true) (.vint 5)) "x" =
      .ok (some (.vint 5)) ∧
    vmRunModule 10 20 (orProg (.vbool false) (.vint 5)) = .ok .vnull :=
  ⟨(C2_short_circuit_amended (.vbool true) (.vint 5)).1 rfl,
   (C2_short_circuit_amended (.vbool false) (.vint 5)).2.1 rfl,
   (C2_short_circuit_amended (.vbool true) (.vint 5)).2.2.1 rfl,
   ((C2_short_circuit_amended (.vbool false) (.vint 5)).2.2.2 rfl).1⟩

/-! ## Claim C6 -/

/-- C6 counterexample: `for var i := 0 to 1 step 0 {}` on the VM path
terminates normally with no runtime error — the claim's "runtime error on
both execution paths" fails for the bytecode VM (the compiled loop tests
`step > 0`, falls to the `iter >= end` branch, and exits at once). -/
theorem C6_counterexample :
    vmRunModule 20 200 step0Prog = .ok .vnull := rfl

/-- C6 amended: a zero step is a runtime error on the tree-interpreter
path only (`for-loop step must not be zero`, raised before the first
iteration for any bounds and body); the VM path raises no error.  With a
nonzero step the `to` bound is inclusive and a negative step reverses the
comparison on both paths: summing `i` over `for i := 0 to 3` gives
`0+1+2+3 = 6`, and over `for i := 3 to 1 step -1` gives `3+2+1 = 6`, on
the VM and on the interpreter alike. -/
theorem C6_for_loop_amended :
    (∀ (fuel env : Nat) (h : Heap) (name : String) (a b : Value)
       (body : List Stmt),
      execStmt (fuel + 2) (.forStmt name (.lit a) (.lit b)
          (some (.lit (.vint 0))) body) env h =
        (.error (.err "for-loop 'step' must not be zero"),
         envDefine (h ++ [newFrame (some env) false]) h.length name a false)) ∧
    vmRunModuleGlobal 20 300 inclProg "s" = .ok (some (.vint 6)) ∧
    interpGlobalAfter 100 inclProg "s" = .ok (some (.vint 6)) ∧
    vmRunModuleGlobal 20 300 negStepProg "s" = .ok (some (.vint 6)) ∧
    interpGlobalAfter 100 negStepProg "s" = .ok (some (.vint 6)) := by
  refine ⟨?_, rfl, rfl, rfl, rfl⟩
  intro fuel env h name a b body
  rfl

/-! ## Claim C7 -/

/-- C7 counterexample: calling `function f(a) { return a; }` as `f()` on
the tree-interpreter path raises `Function expected 1 args but got 0`
instead of binding the missing parameter to `null` as the claim
states. -/
theorem C7_counterexample :
    (Interpreter.interpret 100 missingArgInterpProg).1 =
      .error "Function expected 1 args but got 0" := rfl

/-- C7 amended: on the VM path, a code-backed call builds its locals from
`[None] * nlocals` and the first `min(argcount, # args)` arguments, so
extra arguments are discarded and missing parameters are `null` (shown
entrywise and end-to-end).  The tree interpreter's `Function.call`
instead raises on any arity mismatch, and the VM-to-interpreter bridge
`call_function_ast` binds parameters by `zip`: extras are discarded, but
missing parameters are left **unbound**, so reading one falls through to
the globals and raises an undefined-variable error rather than yielding
`null`. -/
theorem C7_arity_amended :
    (∀ (n a : Nat) (args : List Value) (j : Nat),
      (VM.vmCallLocals n a args).length = n ∧
      (VM.vmCallLocals n a args)[j]? =
        if j < n then
          (if j < min a args.length then args[j]? else some .vnull)
        else none) ∧
    (∀ (fuel : Nat) (name : Option String) (params : List String)
       (body : List Stmt) (closure : Nat) (args : List Value) (h : Heap),
      args.length ≠ params.length →
      functionCall (fuel + 1) name params body closure args h =
        (.error (.err (arityErrMsg params.length args.length)), h)) ∧
    (∀ (fuel : Nat) (name : Option String) (params : List String)
       (body : List Stmt) (args : List Value) (h : Heap),
      callFunctionAst fuel name params body args h =
        callFunctionAst fuel name params body (args.take params.length) h) ∧
    (∀ (fuel : Nat) (p : String), p ≠ "break" →
      callFunctionAst (fuel + 4) none [p] [.returnStmt (some (.evar p))] []
          [newFrame none false] =
        (.error (.err s!"Undefined variable '{p}'"),
         [newFrame none false, newFrame (some 0) false])) ∧
    vmRunModuleGlobal 20 100 extraArgsVMProg "x" = .ok (some (.vint 1)) ∧
    vmRunModuleGlobal 20 100 missingArgVMProg "y" = .ok (some .vnull) := by
  refine ⟨?_, ?_, ?_, ?_, rfl, rfl⟩
  · intro n a args j
    exact ⟨vmCallLocals_length n a args, vmCallLocals_getElem? n a args j⟩
  · intro fuel name params body closure args h hne
    simp only [functionCall, interpRun, if_pos hne]
  · intro fuel name params body args h
    cases fuel with
    | zero => rfl
    | succ f =>
      simp only [callFunctionAst, interpRun]
      rw [zip_take_length]
  · intro fuel p hp
    simp only [callFunctionAst, interpRun, List.zip, envDefineAll, newFrame,
      envGet, alookup, List.length, if_neg hp]
    rfl

/-- C7 witness: the arity-error and unbound-parameter conjuncts at
concrete inputs. -/
theorem C7_arity_witness :
    functionCall 5 (some "f") ["a"] [] 0 [] [newFrame none false] =
      (.error (.err (arityErrMsg 1 0)), [newFrame none false]) ∧
    callFunctionAst 7 none ["q"] [.returnStmt (some (.evar "q"))] []
        [newFrame none false] =
      (.error (.err "Undefined variable 'q'"),
       [newFrame none false, newFrame (some 0) false]) := by
  refine ⟨C7_arity_amended.2.1 4 (some "f") ["a"] [] 0 [] _ (by decide), ?_⟩
  have h := C7_arity_amended.2.2.2.1 3 "q" (by decide)
  simpa using h

end Falcon
